import Mathlib

/-!
Verification development for the onTro-finance knowledge-arbitration core.

Each section embeds one part of the Python source as executable Lean
definitions (Python dicts become association lists that preserve insertion
order, floats become rationals, datetimes become natural-number day counts)
and proves or refutes the specification claims about it.
-/

set_option maxRecDepth 4000

namespace OnTro

/-! ## Association lists (Python dict semantics)

Python dicts preserve insertion order: updating an existing key keeps its
position, inserting a new key appends at the end.  The helpers below mirror
that behaviour. -/

def lookupKey {κ β : Type} [DecidableEq κ] : List (κ × β) → κ → Option β
  | [], _ => none
  | (k, v) :: rest, key => if k = key then some v else lookupKey rest key

def setKey {κ β : Type} [DecidableEq κ] : List (κ × β) → κ → β → List (κ × β)
  | [], key, val => [(key, val)]
  | (k, v) :: rest, key, val =>
      if k = key then (k, val) :: rest else (k, v) :: setKey rest key val

def eraseKey {κ β : Type} [DecidableEq κ] (l : List (κ × β)) (key : κ) : List (κ × β) :=
  l.filter (fun kv => decide (kv.1 ≠ key))

/-! Structural counterparts of the Python string helpers str.split,
str.join, str.startswith and prefix-dropping.  The Lean core versions use
well-founded recursion, which the kernel cannot reduce, so concrete runs
could not be evaluated with them. -/

def splitCommaAux : List Char → List Char → List String
  | [], acc => [String.mk acc.reverse]
  | ch :: rest, acc =>
      if ch = ',' then String.mk acc.reverse :: splitCommaAux rest []
      else splitCommaAux rest (ch :: acc)

/-- Python "x,y,z".split(",") on a string. -/
def splitComma (s : String) : List String := splitCommaAux s.toList []

/-- Python ",".join(parts). -/
def joinComma : List String → String
  | [] => ""
  | [x] => x
  | x :: rest => x ++ "," ++ joinComma rest

/-- Python s.startswith(p). -/
def strStartsWith (s p : String) : Bool := p.toList.isPrefixOf s.toList

/-- Drop the first n characters (used only to strip a namespace marker,
where it agrees with splitting on the first colon). -/
def strDrop (s : String) (n : ℕ) : String := String.mk (s.toList.drop n)

/-- Property values stored in repository props dicts (Python mixes strings,
floats, ints and bools inside the same dict). -/
inductive PVal : Type
  | s (v : String)
  | q (v : ℚ)
  | i (v : Int)
  | b (v : Bool)
deriving DecidableEq

def Props : Type := List (String × PVal)

instance : DecidableEq Props := inferInstanceAs (DecidableEq (List (String × PVal)))

/-- Python dict.update: merge the entries of u into d, overwriting existing
keys in place and appending new keys at the end. -/
def dictUpdate (d u : Props) : Props :=
  u.foldl (fun acc kv => setKey acc kv.1 kv.2) d

def propsGetS (p : Props) (key : String) (dflt : String) : String :=
  match lookupKey p key with
  | some (PVal.s v) => v
  | _ => dflt

def propsGetQ (p : Props) (key : String) (dflt : ℚ) : ℚ :=
  match lookupKey p key with
  | some (PVal.q v) => v
  | some (PVal.i v) => (v : ℚ)
  | _ => dflt

def propsGetI (p : Props) (key : String) (dflt : Int) : Int :=
  match lookupKey p key with
  | some (PVal.i v) => v
  | _ => dflt

def propsGetB (p : Props) (key : String) (dflt : Bool) : Bool :=
  match lookupKey p key with
  | some (PVal.b v) => v
  | _ => dflt

/-! ## InMemoryGraphRepository (src/storage/inmemory_repository.py)

State is the `_entities` dict (entity_id to labels/props row) and the
`_relations` dict keyed by (src_id, rel_type, dst_id).  The `_edges_out`
and `_edges_in` neighbour caches are read only by `get_neighbors`, which no
claim touches, so they are not carried in the state. -/

structure EntityRow : Type where
  labels : List String
  props : Props
deriving DecidableEq

structure RelKey : Type where
  src : String
  rel : String
  dst : String
deriving DecidableEq

structure RepoState : Type where
  entities : List (String × EntityRow)
  relations : List (RelKey × Props)
deriving DecidableEq

def RepoState.empty : RepoState := ⟨[], []⟩

/-- upsert_entity: merge props shallowly into an existing row (labels are
replaced), or insert a fresh row. -/
def upsertEntity (s : RepoState) (id : String) (labels : List String)
    (props : Props) : RepoState :=
  match lookupKey s.entities id with
  | some row =>
      { s with entities := setKey s.entities id ⟨labels, dictUpdate row.props props⟩ }
  | none =>
      { s with entities := s.entities ++ [(id, ⟨labels, props⟩)] }

/-- upsert_relation: merge props into the existing keyed row or insert it. -/
def upsertRelation (s : RepoState) (src rel dst : String) (props : Props) :
    RepoState :=
  let key : RelKey := ⟨src, rel, dst⟩
  match lookupKey s.relations key with
  | some old => { s with relations := setKey s.relations key (dictUpdate old props) }
  | none => { s with relations := s.relations ++ [(key, props)] }

def getEntity (s : RepoState) (id : String) : Option EntityRow :=
  lookupKey s.entities id

def getRelation (s : RepoState) (src rel dst : String) : Option Props :=
  lookupKey s.relations ⟨src, rel, dst⟩

/-- delete_entity: missing id returns false; otherwise the entity row and
every relation incident to it are removed (cascade). -/
def deleteEntity (s : RepoState) (id : String) : RepoState × Bool :=
  match lookupKey s.entities id with
  | none => (s, false)
  | some _ =>
      (⟨eraseKey s.entities id,
        s.relations.filter (fun kv => decide (kv.1.src ≠ id) && decide (kv.1.dst ≠ id))⟩,
       true)

def deleteRelation (s : RepoState) (src rel dst : String) : RepoState × Bool :=
  let key : RelKey := ⟨src, rel, dst⟩
  match lookupKey s.relations key with
  | none => (s, false)
  | some _ => ({ s with relations := eraseKey s.relations key }, true)

def countEntities (s : RepoState) : ℕ := s.entities.length

def countRelations (s : RepoState) : ℕ := s.relations.length

def getAllRelations (s : RepoState) : List (RelKey × Props) := s.relations

/-! ## KGTransactionManager (src/storage/transaction_manager.py)

A transaction applies each mutating call immediately and records one
ChangeRecord per call; rollback replays inverse operations in reverse
insertion order.  _undo_change guards each inverse behind Python
truthiness tests: a recorded string id is truthy exactly when it is
non-empty, so an empty-string id makes the undo a silent no-op, which the
model reproduces.  The before_state dicts are what get_entity and
get_relation return: fixed-shape dicts (id/labels/props resp.
src_id/rel_type/dst_id/props) that are never empty when present, so their
truthiness coincides with presence (isSome) in the model.  Note on
before_state: the Python code stores the dict object returned by
get_entity/get_relation, which aliases the live repository row; the pure
model below snapshots the value instead.  The theorems about restoration
only involve CREATE records, whose undo path never reads before_state, so
the difference does not enter any proof. -/

inductive OperationType : Type
  | createEntityOp
  | updateEntityOp
  | deleteEntityOp
  | createRelationOp
  | updateRelationOp
  | deleteRelationOp
deriving DecidableEq

/-- The slice of a before/after snapshot that _undo_change reads back:
the labels list (empty for relation snapshots, matching dict.get
of a missing labels key) and the props dict. -/
structure Snapshot : Type where
  labels : List String
  props : Props
deriving DecidableEq

structure ChangeRecord : Type where
  operation : OperationType
  entity_id : Option String
  src_id : Option String
  rel_type : Option String
  dst_id : Option String
  before_state : Option Snapshot
  after_state : Option Snapshot
deriving DecidableEq

/-- The mutating calls a transaction scope can issue through the manager. -/
inductive TxOp : Type
  | createEntity (id : String) (labels : List String) (props : Props)
  | updateEntity (id : String) (labels : List String) (props : Props)
  | deleteEntity (id : String)
  | createRelation (src rel dst : String) (props : Props)
  | updateRelation (src rel dst : String) (props : Props)
  | deleteRelation (src rel dst : String)
deriving DecidableEq

/-- One mutating call: the repository effect plus the recorded change.
delete calls on missing rows return early and record nothing. -/
def applyTxOp (s : RepoState) : TxOp → RepoState × Option ChangeRecord
  | TxOp.createEntity id labels props =>
      (upsertEntity s id labels props,
       some ⟨OperationType.createEntityOp, some id, none, none, none, none,
             some ⟨labels, props⟩⟩)
  | TxOp.updateEntity id labels props =>
      let before := (getEntity s id).map (fun row => Snapshot.mk row.labels row.props)
      (upsertEntity s id labels props,
       some ⟨OperationType.updateEntityOp, some id, none, none, none, before,
             some ⟨labels, props⟩⟩)
  | TxOp.deleteEntity id =>
      match getEntity s id with
      | none => (s, none)
      | some row =>
          ((deleteEntity s id).1,
           some ⟨OperationType.deleteEntityOp, some id, none, none, none,
                 some ⟨row.labels, row.props⟩, none⟩)
  | TxOp.createRelation src rel dst props =>
      (upsertRelation s src rel dst props,
       some ⟨OperationType.createRelationOp, none, some src, some rel, some dst,
             none, some ⟨[], props⟩⟩)
  | TxOp.updateRelation src rel dst props =>
      let before := (getRelation s src rel dst).map (fun p => Snapshot.mk [] p)
      (upsertRelation s src rel dst props,
       some ⟨OperationType.updateRelationOp, none, some src, some rel, some dst,
             before, some ⟨[], props⟩⟩)
  | TxOp.deleteRelation src rel dst =>
      match getRelation s src rel dst with
      | none => (s, none)
      | some p =>
          ((deleteRelation s src rel dst).1,
           some ⟨OperationType.deleteRelationOp, none, some src, some rel, some dst,
                 some ⟨[], p⟩, none⟩)

/-- Run a transaction body: apply each call in order, collecting the change
log in insertion order. -/
def runTx (s : RepoState) : List TxOp → RepoState × List ChangeRecord
  | [] => (s, [])
  | op :: ops =>
      let step := applyTxOp s op
      let rest := runTx step.1 ops
      (rest.1, step.2.toList ++ rest.2)

/-- _undo_change: inverse application of a single ChangeRecord, behind the
sources truthiness guards.  CREATE_ENTITY undoes only for a truthy (present
and non-empty) entity_id; UPDATE_ENTITY additionally needs a truthy
before_state; DELETE_ENTITY needs only a truthy before_state (the entity_id
is passed unguarded, and the manager always records it alongside the
snapshot); the relation undos need truthy src_id, rel_type and dst_id, and
for UPDATE/DELETE also a truthy before_state.  A snapshot, when present, is
a fixed-shape nonempty dict, so its truthiness is its presence. -/
def undoChange (s : RepoState) (c : ChangeRecord) : RepoState :=
  match c.operation with
  | OperationType.createEntityOp =>
      match c.entity_id with
      | some id => if id = "" then s else (deleteEntity s id).1
      | none => s
  | OperationType.updateEntityOp =>
      match c.entity_id, c.before_state with
      | some id, some b => if id = "" then s else upsertEntity s id b.labels b.props
      | _, _ => s
  | OperationType.deleteEntityOp =>
      match c.entity_id, c.before_state with
      | some id, some b => upsertEntity s id b.labels b.props
      | _, _ => s
  | OperationType.createRelationOp =>
      match c.src_id, c.rel_type, c.dst_id with
      | some src, some rel, some dst =>
          if src = "" ∨ rel = "" ∨ dst = "" then s
          else (deleteRelation s src rel dst).1
      | _, _, _ => s
  | OperationType.updateRelationOp =>
      match c.src_id, c.rel_type, c.dst_id, c.before_state with
      | some src, some rel, some dst, some b =>
          if src = "" ∨ rel = "" ∨ dst = "" then s
          else upsertRelation s src rel dst b.props
      | _, _, _, _ => s
  | OperationType.deleteRelationOp =>
      match c.src_id, c.rel_type, c.dst_id, c.before_state with
      | some src, some rel, some dst, some b =>
          if src = "" ∨ rel = "" ∨ dst = "" then s
          else upsertRelation s src rel dst b.props
      | _, _, _, _ => s

/-- _rollback: undo the recorded changes in reverse insertion order. -/
def rollbackChanges (s : RepoState) (changes : List ChangeRecord) : RepoState :=
  changes.reverse.foldl undoChange s

/-- The repository state left after a transaction body runs and then rolls
back (the error path of the transaction context manager). -/
def rolledBackState (s : RepoState) (ops : List TxOp) : RepoState :=
  rollbackChanges (runTx s ops).1 (runTx s ops).2

/-! ## Claim C1: rollback atomicity -/

/-- Claim C1 as stated: after any transaction body rolls back, entity and
relation counts equal their pre-transaction values, and every relation
existing before the transaction regains its pre-transaction props. -/
def ClaimC1Statement : Prop :=
  ∀ (s : RepoState) (ops : List TxOp),
    countEntities (rolledBackState s ops) = countEntities s ∧
    countRelations (rolledBackState s ops) = countRelations s ∧
    ∀ src rel dst props0, getRelation s src rel dst = some props0 →
      getRelation (rolledBackState s ops) src rel dst = some props0

/-- Pre-transaction state of the refuting run: entities H and T and the
domain relation H-Affect-T already exist. -/
def c1PreState : RepoState :=
  ⟨[("H", ⟨["DomainEntity"], [("name", PVal.s "H")]⟩),
    ("T", ⟨["DomainEntity"], [("name", PVal.s "T")]⟩)],
   [(⟨"H", "domain:Affect", "T"⟩, [("sign", PVal.s "+"), ("domain_conf", PVal.q (1/2))])]⟩

/-- The transaction body of the refuting run: exactly the calls
DomainKGAdapter.upsert_relation issues inside a transaction (create_entity
for head and tail, create_relation for the edge), here hitting rows that
already exist. -/
def c1TxOps : List TxOp :=
  [TxOp.createEntity "H" ["DomainEntity"] [("name", PVal.s "H"), ("type", PVal.s "entity")],
   TxOp.createEntity "T" ["DomainEntity"] [("name", PVal.s "T"), ("type", PVal.s "entity")],
   TxOp.createRelation "H" "domain:Affect" "T"
     [("sign", PVal.s "+"), ("domain_conf", PVal.q (13/20))]]

/-- A transaction body consisting only of creates of genuinely fresh rows
under non-empty ids: each create_entity targets a non-empty id that is
absent and has no incident relations, and each create_relation targets an
absent key whose three components are non-empty, relative to the state at
that point of the body.  Non-emptiness matters because _undo_change skips
the inverse of a record whose id fields are empty strings (Python
truthiness), leaving the created row behind. -/
def freshCreatesOnly : RepoState → List TxOp → Bool
  | _, [] => true
  | s, TxOp.createEntity id labels props :: rest =>
      !(id == "") &&
      (getEntity s id).isNone &&
      s.relations.all (fun kv => decide (kv.1.src ≠ id) && decide (kv.1.dst ≠ id)) &&
      freshCreatesOnly (upsertEntity s id labels props) rest
  | s, TxOp.createRelation src rel dst props :: rest =>
      !(src == "") && !(rel == "") && !(dst == "") &&
      (getRelation s src rel dst).isNone &&
      freshCreatesOnly (upsertRelation s src rel dst props) rest
  | _, _ :: _ => false

theorem lookupKey_append_single {κ β : Type} [DecidableEq κ] (l : List (κ × β))
    (k : κ) (v : β) (h : lookupKey l k = none) :
    lookupKey (l ++ [(k, v)]) k = some v := by
  induction l with
  | nil => simp [lookupKey]
  | cons a rest ih =>
      obtain ⟨ka, va⟩ := a
      by_cases hka : ka = k
      · simp [lookupKey, hka] at h
      · simp only [lookupKey, hka, if_false, List.cons_append] at h ⊢
        exact ih h

theorem eraseKey_append_single {κ β : Type} [DecidableEq κ] (l : List (κ × β))
    (k : κ) (v : β) (h : lookupKey l k = none) :
    eraseKey (l ++ [(k, v)]) k = l := by
  induction l with
  | nil => simp [eraseKey, List.filter]
  | cons a rest ih =>
      obtain ⟨ka, va⟩ := a
      by_cases hka : ka = k
      · simp [lookupKey, hka] at h
      · simp only [lookupKey, hka, if_false] at h
        unfold eraseKey at ih ⊢
        rw [List.cons_append, List.filter_cons, if_pos (by simp [hka]), ih h]

/-- Undoing a create_entity record that targeted a fresh id (absent, no
incident relations) restores the previous repository state exactly. -/
theorem undo_createEntity_fresh (s : RepoState) (id : String)
    (labels : List String) (props : Props)
    (hent : getEntity s id = none)
    (hrel : s.relations.all
      (fun kv => decide (kv.1.src ≠ id) && decide (kv.1.dst ≠ id)) = true) :
    (deleteEntity (upsertEntity s id labels props) id).1 = s := by
  unfold getEntity at hent
  unfold upsertEntity
  rw [hent]
  unfold deleteEntity
  simp only
  rw [lookupKey_append_single s.entities id ⟨labels, props⟩ hent]
  simp only
  have hfilter : s.relations.filter
      (fun kv => decide (kv.1.src ≠ id) && decide (kv.1.dst ≠ id)) = s.relations :=
    List.filter_eq_self.mpr (by
      intro a ha
      exact (List.all_eq_true.mp hrel) a ha)
  rw [eraseKey_append_single s.entities id ⟨labels, props⟩ hent, hfilter]

/-- Undoing a create_relation record that targeted a fresh key restores the
previous repository state exactly. -/
theorem undo_createRelation_fresh (s : RepoState) (src rel dst : String)
    (props : Props) (h : getRelation s src rel dst = none) :
    (deleteRelation (upsertRelation s src rel dst props) src rel dst).1 = s := by
  unfold getRelation at h
  unfold upsertRelation
  simp only
  rw [h]
  unfold deleteRelation
  simp only
  rw [lookupKey_append_single s.relations ⟨src, rel, dst⟩ props h]
  simp only
  rw [eraseKey_append_single s.relations ⟨src, rel, dst⟩ props h]

theorem rollbackChanges_append (s : RepoState) (c : ChangeRecord)
    (recs : List ChangeRecord) :
    rollbackChanges s (c :: recs) = undoChange (rollbackChanges s recs) c := by
  unfold rollbackChanges
  rw [List.reverse_cons, List.foldl_append]
  rfl

theorem runTx_cons_fst (s : RepoState) (op : TxOp) (ops : List TxOp) :
    (runTx s (op :: ops)).1 = (runTx (applyTxOp s op).1 ops).1 := rfl

theorem runTx_cons_snd (s : RepoState) (op : TxOp) (ops : List TxOp) :
    (runTx s (op :: ops)).2 =
      (applyTxOp s op).2.toList ++ (runTx (applyTxOp s op).1 ops).2 := rfl

/-- Peeling one call off a rolled-back transaction: the remaining calls are
undone first (reverse order), then the first call is undone last. -/
theorem rolledBackState_cons (s : RepoState) (op : TxOp) (ops : List TxOp) :
    rolledBackState s (op :: ops) =
      (match (applyTxOp s op).2 with
       | some c => undoChange (rolledBackState (applyTxOp s op).1 ops) c
       | none => rolledBackState (applyTxOp s op).1 ops) := by
  unfold rolledBackState
  rw [runTx_cons_fst, runTx_cons_snd]
  cases hc : (applyTxOp s op).2 with
  | none => simp [hc, Option.toList]
  | some c =>
      simp only [hc, Option.toList, List.singleton_append]
      exact rollbackChanges_append _ c _

/-- C1 (amended): rollback does restore the repository exactly when every
mutation in the transaction created a genuinely fresh row under a
non-empty id (which the passing test suite exercises); in particular
entity and relation counts return to their pre-transaction values.  The
claim fails in general because undoing CREATE records deletes rows that
already existed; and for empty-string ids the truthiness guard of
_undo_change skips the undo entirely. -/
theorem C1_rollback_freshCreates_restores (ops : List TxOp) (s : RepoState)
    (h : freshCreatesOnly s ops = true) :
    rolledBackState s ops = s ∧
    countEntities (rolledBackState s ops) = countEntities s ∧
    countRelations (rolledBackState s ops) = countRelations s := by
  suffices hmain : rolledBackState s ops = s by
    exact ⟨hmain, by rw [hmain], by rw [hmain]⟩
  induction ops generalizing s with
  | nil => rfl
  | cons op rest ih =>
      cases op with
      | createEntity id labels props =>
          simp only [freshCreatesOnly, Bool.and_eq_true, Option.isNone_iff_eq_none,
            Bool.not_eq_true', beq_eq_false_iff_ne] at h
          obtain ⟨⟨⟨hid, hent⟩, hrel⟩, hfresh⟩ := h
          rw [rolledBackState_cons]
          simp only [applyTxOp]
          rw [ih (upsertEntity s id labels props) hfresh]
          unfold undoChange
          simp only
          rw [if_neg hid]
          exact undo_createEntity_fresh s id labels props hent hrel
      | createRelation src rel dst props =>
          simp only [freshCreatesOnly, Bool.and_eq_true, Option.isNone_iff_eq_none,
            Bool.not_eq_true', beq_eq_false_iff_ne] at h
          obtain ⟨⟨⟨⟨hsrc, hrel'⟩, hdst⟩, hkey⟩, hfresh⟩ := h
          rw [rolledBackState_cons]
          simp only [applyTxOp]
          rw [ih (upsertRelation s src rel dst props) hfresh]
          unfold undoChange
          simp only
          rw [if_neg (by simp [hsrc, hrel', hdst])]
          exact undo_createRelation_fresh s src rel dst props hkey
      | updateEntity id labels props => simp [freshCreatesOnly] at h
      | deleteEntity id => simp [freshCreatesOnly] at h
      | updateRelation src rel dst props => simp [freshCreatesOnly] at h
      | deleteRelation src rel dst => simp [freshCreatesOnly] at h

/-- C1 counterexample: rollback is not atomic as claimed.  Starting from a
repository holding entities H, T and relation H-Affect-T, the transaction
body that DomainKGAdapter.upsert_relation issues (create_entity twice,
create_relation once, all hitting pre-existing rows) rolls back by deleting
those rows, so count_relations drops from 1 to 0. -/
theorem C1_rollback_counterexample : ¬ ClaimC1Statement := by
  intro h
  have h2 := (h c1PreState c1TxOps).2.1
  revert h2
  decide

/-- C1 witness: a concrete fresh-creates transaction (new entity E1, new
entity E2, new relation between them, starting from the counterexample
pre-state) satisfies the freshness precondition and rolls back to the
original state. -/
theorem C1_rollback_witness :
    freshCreatesOnly c1PreState
      [TxOp.createEntity "E1" ["DomainEntity"] [("name", PVal.s "E1")],
       TxOp.createEntity "E2" ["DomainEntity"] [("name", PVal.s "E2")],
       TxOp.createRelation "E1" "domain:Cause" "E2" [("sign", PVal.s "-")]] = true ∧
    rolledBackState c1PreState
      [TxOp.createEntity "E1" ["DomainEntity"] [("name", PVal.s "E1")],
       TxOp.createEntity "E2" ["DomainEntity"] [("name", PVal.s "E2")],
       TxOp.createRelation "E1" "domain:Cause" "E2" [("sign", PVal.s "-")]] = c1PreState :=
  ⟨by decide,
   (C1_rollback_freshCreates_restores
     [TxOp.createEntity "E1" ["DomainEntity"] [("name", PVal.s "E1")],
      TxOp.createEntity "E2" ["DomainEntity"] [("name", PVal.s "E2")],
      TxOp.createRelation "E1" "domain:Cause" "E2" [("sign", PVal.s "-")]]
     c1PreState (by decide)).1⟩

/-! ## Validation models (src/validation/models.py, src/shared/models.py) -/

inductive SignTag : Type
  | confident
  | ambiguous
  | suspect
  | unknown
deriving DecidableEq

def SignTag.value : SignTag → String
  | SignTag.confident => "confident"
  | SignTag.ambiguous => "ambiguous"
  | SignTag.suspect => "suspect"
  | SignTag.unknown => "unknown"

inductive SemanticTag : Type
  | sem_confident
  | sem_weak
  | sem_spurious
  | sem_wrong
  | sem_ambiguous
deriving DecidableEq

def SemanticTag.value : SemanticTag → String
  | SemanticTag.sem_confident => "sem_confident"
  | SemanticTag.sem_weak => "sem_weak"
  | SemanticTag.sem_spurious => "sem_spurious"
  | SemanticTag.sem_wrong => "sem_wrong"
  | SemanticTag.sem_ambiguous => "sem_ambiguous"

inductive ValidationDestination : Type
  | domain_candidate
  | personal_candidate
  | drop_log
deriving DecidableEq

/-- The RawEdge fields the validation stages read (shared/models.py). -/
structure RawEdge : Type where
  raw_edge_id : String
  head_entity_id : String
  tail_entity_id : String
  relation_type : String
  polarity_guess : String
  student_conf : ℚ
  fragment_id : String
  fragment_text : Option String
deriving DecidableEq

structure SchemaValidationResult : Type where
  edge_id : String
  schema_valid : Bool
  schema_errors : List String
  has_required_fields : Bool
  relation_type_valid : Bool
  entity_pair_valid : Bool
  no_self_loop : Bool
deriving DecidableEq

structure SignValidationResult : Type where
  edge_id : String
  polarity_final : String
  sign_tag : SignTag
  sign_consistency_score : ℚ
  conflict_with_static : Bool
deriving DecidableEq

structure SemanticValidationResult : Type where
  edge_id : String
  semantic_tag : SemanticTag
  semantic_confidence : ℚ
  domain_conflict : Bool
deriving DecidableEq

structure ValidationResult : Type where
  edge_id : String
  validation_passed : Bool
  destination : ValidationDestination
  combined_conf : ℚ
  student_conf : ℚ
  sign_score : ℚ
  semantic_conf : ℚ
  schema_result : Option SchemaValidationResult
  sign_result : Option SignValidationResult
  semantic_result : Option SemanticValidationResult
  rejection_reason : Option String
  rejection_details : List String
deriving DecidableEq

/-! ## ConfidenceFilter (src/validation/confidence_filter.py)

The validation_schema.yaml config file is absent from the repository, so
the loaders take the FileNotFoundError branch and the default thresholds
(domain 0.55, personal 0.35) and weights (0.4 / 0.3 / 0.3) apply. -/

def domainThreshold : ℚ := 11/20

def personalThreshold : ℚ := 7/20

/-- Conditions A, B, C: the rejection_reasons list built by filter.
Python appends one code per violated rule, in order A, B, C. -/
def rejectionReasons (schemaR : SchemaValidationResult)
    (signR : SignValidationResult) (semR : SemanticValidationResult) :
    List String :=
  (if schemaR.schema_valid then [] else ["schema_invalid"]) ++
  (if signR.sign_tag = SignTag.confident ∨ signR.sign_tag = SignTag.ambiguous
    then [] else ["sign_tag:" ++ signR.sign_tag.value]) ++
  (if semR.semantic_tag = SemanticTag.sem_confident ∨
      semR.semantic_tag = SemanticTag.sem_weak ∨
      semR.semantic_tag = SemanticTag.sem_ambiguous
    then [] else ["semantic_tag:" ++ semR.semantic_tag.value])

/-- combined = 0.4 student_conf + 0.3 sign_consistency + 0.3 semantic_conf.
The Python falsy-coalescing of student_conf (0.0 when falsy) is the
identity on rationals, so it is elided. -/
def combinedConf (edge : RawEdge) (signR : SignValidationResult)
    (semR : SemanticValidationResult) : ℚ :=
  (2/5) * edge.student_conf + (3/10) * signR.sign_consistency_score +
    (3/10) * semR.semantic_confidence

/-- ConfidenceFilter.filter: conditions A-C collect rejection codes, then
condition D routes by combined confidence. -/
def confidenceFilter (edge : RawEdge) (schemaR : SchemaValidationResult)
    (signR : SignValidationResult) (semR : SemanticValidationResult) :
    ValidationResult :=
  let reasons := rejectionReasons schemaR signR semR
  let combined := combinedConf edge signR semR
  if _hr : reasons ≠ [] then
    { edge_id := edge.raw_edge_id, validation_passed := false,
      destination := ValidationDestination.drop_log,
      combined_conf := combined, student_conf := edge.student_conf,
      sign_score := signR.sign_consistency_score,
      semantic_conf := semR.semantic_confidence,
      schema_result := some schemaR, sign_result := some signR,
      semantic_result := some semR,
      rejection_reason := reasons.head?, rejection_details := reasons }
  else if domainThreshold ≤ combined then
    { edge_id := edge.raw_edge_id, validation_passed := true,
      destination := ValidationDestination.domain_candidate,
      combined_conf := combined, student_conf := edge.student_conf,
      sign_score := signR.sign_consistency_score,
      semantic_conf := semR.semantic_confidence,
      schema_result := some schemaR, sign_result := some signR,
      semantic_result := some semR,
      rejection_reason := none, rejection_details := [] }
  else if personalThreshold ≤ combined then
    { edge_id := edge.raw_edge_id, validation_passed := true,
      destination := ValidationDestination.personal_candidate,
      combined_conf := combined, student_conf := edge.student_conf,
      sign_score := signR.sign_consistency_score,
      semantic_conf := semR.semantic_confidence,
      schema_result := some schemaR, sign_result := some signR,
      semantic_result := some semR,
      rejection_reason := none, rejection_details := [] }
  else
    { edge_id := edge.raw_edge_id, validation_passed := false,
      destination := ValidationDestination.drop_log,
      combined_conf := combined, student_conf := edge.student_conf,
      sign_score := signR.sign_consistency_score,
      semantic_conf := semR.semantic_confidence,
      schema_result := some schemaR, sign_result := some signR,
      semantic_result := some semR,
      rejection_reason := some "low_confidence",
      rejection_details := ["combined_conf_below_personal_threshold"] }

/-- ValidationPipeline.validate: schema failure short-circuits to DROP_LOG
before the sign and semantic stages run; otherwise the confidence filter
decides.  The sign and semantic stage outputs are inputs here because those
stages consult pattern tables and an optional LLM. -/
def validationPipelineValidate (edge : RawEdge)
    (schemaR : SchemaValidationResult) (signR : SignValidationResult)
    (semR : SemanticValidationResult) : ValidationResult :=
  if schemaR.schema_valid = false then
    { edge_id := edge.raw_edge_id, validation_passed := false,
      destination := ValidationDestination.drop_log,
      combined_conf := 0, student_conf := 0, sign_score := 0, semantic_conf := 0,
      schema_result := some schemaR, sign_result := none, semantic_result := none,
      rejection_reason := some "schema_invalid",
      rejection_details := schemaR.schema_errors }
  else confidenceFilter edge schemaR signR semR

theorem rejectionReasons_eq_nil_iff (schemaR : SchemaValidationResult)
    (signR : SignValidationResult) (semR : SemanticValidationResult) :
    rejectionReasons schemaR signR semR = [] ↔
      (schemaR.schema_valid = true ∧
       (signR.sign_tag = SignTag.confident ∨ signR.sign_tag = SignTag.ambiguous) ∧
       (semR.semantic_tag = SemanticTag.sem_confident ∨
        semR.semantic_tag = SemanticTag.sem_weak ∨
        semR.semantic_tag = SemanticTag.sem_ambiguous)) := by
  unfold rejectionReasons
  split_ifs with h1 h2 h3 <;> simp_all

/-- The three content rules A, B, C as one proposition. -/
def RulesABC (schemaR : SchemaValidationResult) (signR : SignValidationResult)
    (semR : SemanticValidationResult) : Prop :=
  schemaR.schema_valid = true ∧
  (signR.sign_tag = SignTag.confident ∨ signR.sign_tag = SignTag.ambiguous) ∧
  (semR.semantic_tag = SemanticTag.sem_confident ∨
   semR.semantic_tag = SemanticTag.sem_weak ∨
   semR.semantic_tag = SemanticTag.sem_ambiguous)

instance (schemaR : SchemaValidationResult) (signR : SignValidationResult)
    (semR : SemanticValidationResult) :
    Decidable (RulesABC schemaR signR semR) := by
  unfold RulesABC
  infer_instance

theorem validate_destination_eq (edge : RawEdge)
    (schemaR : SchemaValidationResult) (signR : SignValidationResult)
    (semR : SemanticValidationResult) :
    (validationPipelineValidate edge schemaR signR semR).destination =
      (if RulesABC schemaR signR semR ∧
          domainThreshold ≤ combinedConf edge signR semR then
        ValidationDestination.domain_candidate
       else if RulesABC schemaR signR semR ∧
          personalThreshold ≤ combinedConf edge signR semR then
        ValidationDestination.personal_candidate
       else ValidationDestination.drop_log) := by
  unfold validationPipelineValidate confidenceFilter
  by_cases hs : schemaR.schema_valid = false
  · have habc : ¬ RulesABC schemaR signR semR := by
      intro h
      rw [h.1] at hs
      exact absurd hs (by simp)
    simp [hs, habc]
  · have hs1 : schemaR.schema_valid = true := by
      revert hs
      cases schemaR.schema_valid <;> simp
    simp only [hs1, Bool.true_eq_false, if_false]
    by_cases hr : rejectionReasons schemaR signR semR ≠ []
    · have habc : ¬ RulesABC schemaR signR semR := by
        intro h
        exact hr ((rejectionReasons_eq_nil_iff schemaR signR semR).mpr h)
      simp [dif_pos hr, habc]
    · have hnil : rejectionReasons schemaR signR semR = [] := by
        revert hr
        by_cases h : rejectionReasons schemaR signR semR = [] <;> simp_all
      have habc : RulesABC schemaR signR semR :=
        (rejectionReasons_eq_nil_iff schemaR signR semR).mp hnil
      simp only [dif_neg hr]
      split_ifs with hd hp <;> simp_all

/-- C3: admission is exactly the conjunction of the four rules.  The
pipeline destination is DOMAIN_CANDIDATE or PERSONAL_CANDIDATE iff schema
is valid, the sign tag is confident or ambiguous, the semantic tag is
sem_confident, sem_weak or sem_ambiguous, and combined = 0.4 student + 0.3
sign + 0.3 semantic reaches the personal threshold 0.35; among admitted
edges the destination is DOMAIN_CANDIDATE iff combined reaches 0.55, else
PERSONAL_CANDIDATE; any violated rule yields DROP_LOG. -/
theorem C3_validation_admission (edge : RawEdge)
    (schemaR : SchemaValidationResult) (signR : SignValidationResult)
    (semR : SemanticValidationResult) :
    (((validationPipelineValidate edge schemaR signR semR).destination =
        ValidationDestination.domain_candidate ∨
      (validationPipelineValidate edge schemaR signR semR).destination =
        ValidationDestination.personal_candidate) ↔
      (RulesABC schemaR signR semR ∧
       personalThreshold ≤ combinedConf edge signR semR)) ∧
    ((validationPipelineValidate edge schemaR signR semR).destination =
        ValidationDestination.domain_candidate ↔
      (RulesABC schemaR signR semR ∧
       domainThreshold ≤ combinedConf edge signR semR)) ∧
    (¬ (RulesABC schemaR signR semR ∧
        personalThreshold ≤ combinedConf edge signR semR) →
      (validationPipelineValidate edge schemaR signR semR).destination =
        ValidationDestination.drop_log) := by
  rw [validate_destination_eq edge schemaR signR semR]
  have hdp : domainThreshold ≤ combinedConf edge signR semR →
      personalThreshold ≤ combinedConf edge signR semR := by
    intro h
    exact le_trans (by norm_num [personalThreshold, domainThreshold]) h
  split_ifs with hd hp
  · refine ⟨by simp_all [hdp hd.2], by simp_all, by simp_all⟩
  · refine ⟨by simp_all, by simp_all, by simp_all⟩
  · refine ⟨by simp_all, by simp_all, by simp_all⟩

/-- C3 witness: a concrete fully-passing edge with combined confidence
0.4 x 0.8 + 0.3 x 0.85 + 0.3 x 0.8 = 0.815 is admitted with destination
DOMAIN_CANDIDATE. -/
theorem C3_validation_admission_witness :
    (validationPipelineValidate
      ⟨"R001", "E1", "E2", "Affect", "+", 4/5, "F001", none⟩
      ⟨"R001", true, [], true, true, true, true⟩
      ⟨"R001", "+", SignTag.confident, 17/20, false⟩
      ⟨"R001", SemanticTag.sem_confident, 4/5, false⟩).destination =
      ValidationDestination.domain_candidate :=
  (C3_validation_admission
    ⟨"R001", "E1", "E2", "Affect", "+", 4/5, "F001", none⟩
    ⟨"R001", true, [], true, true, true, true⟩
    ⟨"R001", "+", SignTag.confident, 17/20, false⟩
    ⟨"R001", SemanticTag.sem_confident, 4/5, false⟩).2.1.mpr
    (by constructor
        · exact ⟨rfl, Or.inl rfl, Or.inl rfl⟩
        · norm_num [domainThreshold, combinedConf])

/-! ## Domain models (src/domain/models.py)

Counters are natural numbers, datetimes are day counts, floats are
rationals.  math.sqrt has no rational counterpart, so the update module is
parameterised by a function sqrtF standing for it; theorems assume only
facts true of the real square root, packaged below as SqrtApprox (the
value is nonnegative and within one hundredth of the real square root of
the argument, stated by squaring so it stays rational). -/

inductive DomainAction : Type
  | strengthen_static
  | reject_to_personal
  | reject_to_log
  | create_new
  | update_existing
  | trigger_conflict
  | mark_drift
deriving DecidableEq

inductive ConflictType : Type
  | sign_conflict
  | type_conflict
  | conditional_conflict
  | path_conflict
deriving DecidableEq

inductive ConflictResolution : Type
  | keep_existing
  | replace
  | merge
  | to_personal
  | to_drift
deriving DecidableEq

structure DomainCandidate : Type where
  candidate_id : String
  raw_edge_id : String
  head_canonical_id : String
  head_canonical_name : String
  tail_canonical_id : String
  tail_canonical_name : String
  relation_type : String
  polarity : String
  semantic_tag : String
  combined_conf : ℚ
  student_conf : ℚ
  freq_count : ℕ
  evidence_source : String
deriving DecidableEq

structure DynamicRelation : Type where
  relation_id : String
  head_id : String
  head_name : String
  tail_id : String
  tail_name : String
  relation_type : String
  sign : String
  domain_conf : ℚ
  evidence_count : ℕ
  conflict_count : ℕ
  created_at : ℕ
  last_update : ℕ
  origin : String
  semantic_tags : List String
  decay_applied : Bool
  drift_flag : Bool
  need_conflict_resolution : Bool
deriving DecidableEq

structure DynamicUpdateResult : Type where
  candidate_id : String
  relation_id : String
  action : DomainAction
  domain_conf : ℚ
  evidence_count : ℕ
  decayed : Bool
  conflict_pending : Bool
  is_new : Bool
  previous_conf : Option ℚ
  previous_evidence_count : Option ℕ
deriving DecidableEq

/-! ## DomainKGAdapter (src/domain/kg_adapter.py)

The adapter scopes relation types with a domain namespace and serialises a
DynamicRelation to repository props.  created_at and last_update are stored
as strings but never parsed back: _props_to_relation leaves the pydantic
defaults (the current time) on those fields.  upsert_relation and
delete_relation are guarded by the read_only flag, which the bootstrap
singleton leaves at its default True. -/

def domainScopedType (relation_type : String) : String := "domain:" ++ relation_type

def relationToProps (r : DynamicRelation) : Props :=
  [("relation_id", PVal.s r.relation_id),
   ("sign", PVal.s r.sign),
   ("domain_conf", PVal.q r.domain_conf),
   ("evidence_count", PVal.i (r.evidence_count : Int)),
   ("conflict_count", PVal.i (r.conflict_count : Int)),
   ("origin", PVal.s r.origin),
   ("created_at", PVal.s (toString r.created_at)),
   ("last_update", PVal.s (toString r.last_update)),
   ("drift_flag", PVal.b r.drift_flag),
   ("semantic_tags", PVal.s (joinComma r.semantic_tags))]

/-- _props_to_relation: read a stored relation back, resolving entity
display names through the repository. -/
def adapterPropsToRelation (s : RepoState) (now : ℕ)
    (head_id tail_id relation_type : String) (props : Props) : DynamicRelation :=
  let head_name := match getEntity s head_id with
    | some row => propsGetS row.props "name" head_id
    | none => head_id
  let tail_name := match getEntity s tail_id with
    | some row => propsGetS row.props "name" tail_id
    | none => tail_id
  let tagsStr := propsGetS props "semantic_tags" ""
  { relation_id := propsGetS props "relation_id" "",
    head_id := head_id, head_name := head_name,
    tail_id := tail_id, tail_name := tail_name,
    relation_type := relation_type,
    sign := propsGetS props "sign" "+",
    domain_conf := propsGetQ props "domain_conf" (1/2),
    evidence_count := (propsGetI props "evidence_count" 1).toNat,
    conflict_count := (propsGetI props "conflict_count" 0).toNat,
    created_at := now, last_update := now,
    origin := propsGetS props "origin" "unknown",
    semantic_tags := if tagsStr = "" then [] else splitComma tagsStr,
    decay_applied := false, drift_flag := propsGetB props "drift_flag" false,
    need_conflict_resolution := false }

/-- upsert_relation on the direct (tx = None) path: blocked when the
adapter is read-only and force is not set; otherwise upserts head entity,
tail entity and the scoped relation. -/
def adapterUpsertRelation (readOnly force : Bool) (r : DynamicRelation)
    (s : RepoState) : RepoState :=
  if readOnly && !force then s
  else
    let s1 := upsertEntity s r.head_id ["DomainEntity"]
      [("name", PVal.s r.head_name), ("type", PVal.s "entity")]
    let s2 := upsertEntity s1 r.tail_id ["DomainEntity"]
      [("name", PVal.s r.tail_name), ("type", PVal.s "entity")]
    upsertRelation s2 r.head_id (domainScopedType r.relation_type) r.tail_id
      (relationToProps r)

def adapterGetRelation (s : RepoState) (now : ℕ)
    (head_id tail_id relation_type : String) : Option DynamicRelation :=
  match getRelation s head_id (domainScopedType relation_type) tail_id with
  | none => none
  | some props =>
      some (adapterPropsToRelation s now head_id tail_id relation_type props)

/-- get_relation_by_id: linear scan over all stored relations, restricted
to the domain namespace, matching on the relation_id prop.  The type is
unscoped by dropping the 7-character domain namespace marker (the split on
the first colon). -/
def adapterGetRelationById (s : RepoState) (now : ℕ) (relation_id : String) :
    Option DynamicRelation :=
  match s.relations.find? (fun kv =>
      strStartsWith kv.1.rel "domain:" &&
      decide (propsGetS kv.2 "relation_id" "" = relation_id)) with
  | none => none
  | some kv =>
      some (adapterPropsToRelation s now kv.1.src kv.1.dst (strDrop kv.1.rel 7) kv.2)

/-- get_all_relations: relation_id keyed dict of every domain-namespaced
relation with a nonempty relation_id. -/
def adapterGetAllRelations (s : RepoState) (now : ℕ) :
    List (String × DynamicRelation) :=
  s.relations.foldl (fun acc kv =>
    if strStartsWith kv.1.rel "domain:" then
      let rid := propsGetS kv.2 "relation_id" ""
      if rid ≠ "" then
        setKey acc rid (adapterPropsToRelation s now kv.1.src kv.1.dst (strDrop kv.1.rel 7) kv.2)
      else acc
    else acc) []

/-! ## DynamicDomainUpdate (src/domain/dynamic_update.py)

Defaults: initial_conf 0.5, conf_increase_rate 0.05, conf_decrease_rate
0.08, decay_rate 0.98, decay_days 30.  The update reads through the
adapter, mutates the relation record, and writes back through the
(read-only guarded) adapter upsert. -/

def applyDecay (now : ℕ) (r : DynamicRelation) : DynamicRelation × Bool :=
  let daysElapsed := now - r.last_update
  if daysElapsed < 30 then (r, false)
  else
    let decayPeriods := daysElapsed / 30
    let decayFactor := (49/50 : ℚ) ^ decayPeriods
    ({ r with domain_conf := r.domain_conf * decayFactor, decay_applied := true },
     true)

def strengthenRelation (sqrtF : ℕ → ℚ) (now : ℕ) (r : DynamicRelation) :
    DynamicRelation :=
  let ec := r.evidence_count + 1
  let increase := (1/20 : ℚ) / sqrtF ec
  { r with evidence_count := ec, last_update := now,
           domain_conf := min (19/20) (r.domain_conf + increase) }

def weakenRelation (now : ℕ) (r : DynamicRelation) : DynamicRelation :=
  { r with conflict_count := r.conflict_count + 1, last_update := now,
           need_conflict_resolution := true,
           domain_conf := max (1/10) (r.domain_conf - 2/25) }

def createNewRelation (freshId : String) (now : ℕ) (readOnly : Bool)
    (c : DomainCandidate) (s : RepoState) : RepoState × DynamicUpdateResult :=
  let r : DynamicRelation :=
    { relation_id := freshId,
      head_id := c.head_canonical_id, head_name := c.head_canonical_name,
      tail_id := c.tail_canonical_id, tail_name := c.tail_canonical_name,
      relation_type := c.relation_type, sign := c.polarity,
      domain_conf := 1/2, evidence_count := 1, conflict_count := 0,
      created_at := now, last_update := now, origin := c.evidence_source,
      semantic_tags := [c.semantic_tag], decay_applied := false,
      drift_flag := false, need_conflict_resolution := false }
  (adapterUpsertRelation readOnly false r s,
   { candidate_id := c.candidate_id, relation_id := r.relation_id,
     action := DomainAction.create_new, domain_conf := r.domain_conf,
     evidence_count := r.evidence_count, decayed := false,
     conflict_pending := false, is_new := true,
     previous_conf := none, previous_evidence_count := none })

def updateExistingRelation (sqrtF : ℕ → ℚ) (now : ℕ) (readOnly : Bool)
    (r : DynamicRelation) (c : DomainCandidate) (s : RepoState) :
    RepoState × DynamicUpdateResult :=
  let previousConf := r.domain_conf
  let previousEvidence := r.evidence_count
  let decayStep := applyDecay now r
  let strengthened :=
    if c.polarity = decayStep.1.sign ∨ c.polarity = "unknown" then
      (strengthenRelation sqrtF now decayStep.1, false)
    else
      (weakenRelation now decayStep.1, true)
  let r3 :=
    if c.semantic_tag ∈ strengthened.1.semantic_tags then strengthened.1
    else { strengthened.1 with
           semantic_tags := strengthened.1.semantic_tags ++ [c.semantic_tag] }
  (adapterUpsertRelation readOnly false r3 s,
   { candidate_id := c.candidate_id, relation_id := r3.relation_id,
     action := if strengthened.2 then DomainAction.trigger_conflict
               else DomainAction.update_existing,
     domain_conf := r3.domain_conf, evidence_count := r3.evidence_count,
     decayed := decayStep.2, conflict_pending := strengthened.2, is_new := false,
     previous_conf := some previousConf,
     previous_evidence_count := some previousEvidence })

/-- DynamicDomainUpdate.update: look the key up through the adapter, then
create or update.  freshId stands for the uuid-based default relation_id of
a newly constructed DynamicRelation. -/
def dynamicUpdate (sqrtF : ℕ → ℚ) (freshId : String) (now : ℕ)
    (readOnly : Bool) (c : DomainCandidate) (s : RepoState) :
    RepoState × DynamicUpdateResult :=
  match adapterGetRelation s now c.head_canonical_id c.tail_canonical_id
      c.relation_type with
  | none => createNewRelation freshId now readOnly c s
  | some r => updateExistingRelation sqrtF now readOnly r c s

/-! ## Claim C2: evidence accumulation -/

def c2Candidate : DomainCandidate :=
  { candidate_id := "DC_1", raw_edge_id := "R001",
    head_canonical_id := "Entity_A", head_canonical_name := "Entity A",
    tail_canonical_id := "Entity_B", tail_canonical_name := "Entity B",
    relation_type := "Affect", polarity := "+",
    semantic_tag := "sem_confident", combined_conf := 4/5, student_conf := 4/5,
    freq_count := 1, evidence_source := "student" }

/-- C2: with the bootstrap wiring (get_domain_kg_adapter builds the adapter
with the default read_only = True and DynamicDomainUpdate.upsert passes no
force flag), every write of the update module is silently blocked, so
ingesting the same candidate twice leaves the repository empty and the
second ingest still reports is_new with evidence_count 1 - against the
spec, and against the test test_relation_strengthening, which asserts
evidence_count 2 on the second ingest.  With read_only = False the intended
accumulation appears (second ingest: is_new false, evidence_count 2). -/
theorem C2_evidence_accumulation_bug :
    ((dynamicUpdate (fun n => (n : ℚ)) "DYN_2" 0 true c2Candidate
        (dynamicUpdate (fun n => (n : ℚ)) "DYN_1" 0 true c2Candidate
          RepoState.empty).1).2.is_new = true ∧
     (dynamicUpdate (fun n => (n : ℚ)) "DYN_2" 0 true c2Candidate
        (dynamicUpdate (fun n => (n : ℚ)) "DYN_1" 0 true c2Candidate
          RepoState.empty).1).2.evidence_count = 1 ∧
     countRelations
       (dynamicUpdate (fun n => (n : ℚ)) "DYN_2" 0 true c2Candidate
          (dynamicUpdate (fun n => (n : ℚ)) "DYN_1" 0 true c2Candidate
            RepoState.empty).1).1 = 0) ∧
    ((dynamicUpdate (fun n => (n : ℚ)) "DYN_2" 0 false c2Candidate
        (dynamicUpdate (fun n => (n : ℚ)) "DYN_1" 0 false c2Candidate
          RepoState.empty).1).2.is_new = false ∧
     (dynamicUpdate (fun n => (n : ℚ)) "DYN_2" 0 false c2Candidate
        (dynamicUpdate (fun n => (n : ℚ)) "DYN_1" 0 false c2Candidate
          RepoState.empty).1).2.evidence_count = 2) := by
  with_unfolding_all decide

/-! ## Claim C5: confidence bounds -/

theorem applyDecay_sign (now : ℕ) (r : DynamicRelation) :
    (applyDecay now r).1.sign = r.sign := by
  unfold applyDecay
  dsimp only
  split_ifs <;> rfl

theorem applyDecay_evidence (now : ℕ) (r : DynamicRelation) :
    (applyDecay now r).1.evidence_count = r.evidence_count := by
  unfold applyDecay
  dsimp only
  split_ifs <;> rfl

theorem applyDecay_conf (now : ℕ) (r : DynamicRelation) :
    (applyDecay now r).1.domain_conf =
      (if now - r.last_update < 30 then r.domain_conf
       else r.domain_conf * ((49:ℚ)/50) ^ ((now - r.last_update) / 30)) := by
  unfold applyDecay
  dsimp only
  split_ifs <;> rfl

/-- The confidence written by _update_existing_relation: decay first, then
the capped strengthen increase or the floored weaken decrease. -/
theorem updateExisting_conf (sqrtF : ℕ → ℚ) (now : ℕ) (readOnly : Bool)
    (r : DynamicRelation) (c : DomainCandidate) (s : RepoState) :
    (updateExistingRelation sqrtF now readOnly r c s).2.domain_conf =
      (if c.polarity = r.sign ∨ c.polarity = "unknown" then
        min (19/20)
          ((applyDecay now r).1.domain_conf + (1/20) / sqrtF (r.evidence_count + 1))
       else
        max (1/10) ((applyDecay now r).1.domain_conf - 2/25)) := by
  unfold updateExistingRelation
  dsimp only
  rw [applyDecay_sign]
  split_ifs <;>
    first
      | rfl
      | (unfold strengthenRelation
         dsimp only
         rw [applyDecay_evidence])

/-- A rational stand-in for math.sqrt on the naturals: nonnegative, and
within one hundredth of the real square root of the argument, phrased by
squaring so the statement stays in the rationals.  The real square root
satisfies all three facts (its square is n exactly), and so does the
correctly rounded double sqrt the program calls. -/
def SqrtApprox (f : ℕ → ℚ) : Prop :=
  ∀ n : ℕ, 0 ≤ f n ∧ f n * f n < (n : ℚ) + 1/100 ∧
    (n : ℚ) < (f n + 1/100) * (f n + 1/100)

/-- A concrete member of SqrtApprox: the real square root floored to two
decimal places. -/
def ratSqrt (n : ℕ) : ℚ := (Nat.sqrt (10000 * n) : ℚ) / 100

theorem ratSqrt_approx : SqrtApprox ratSqrt := by
  intro n
  have h1 : (Nat.sqrt (10000 * n) : ℚ) * (Nat.sqrt (10000 * n) : ℚ) ≤
      10000 * (n : ℚ) := by
    exact_mod_cast Nat.sqrt_le (10000 * n)
  have h2 : 10000 * (n : ℚ) <
      ((Nat.sqrt (10000 * n) : ℚ) + 1) * ((Nat.sqrt (10000 * n) : ℚ) + 1) := by
    exact_mod_cast Nat.lt_succ_sqrt (10000 * n)
  refine ⟨?_, ?_, ?_⟩
  · unfold ratSqrt
    positivity
  · unfold ratSqrt
    rw [div_mul_div_comm, div_lt_iff₀ (by norm_num : (0:ℚ) < 100 * 100)]
    linarith
  · unfold ratSqrt
    have he : (Nat.sqrt (10000 * n) : ℚ) / 100 + 1/100 =
        ((Nat.sqrt (10000 * n) : ℚ) + 1) / 100 := by ring
    rw [he, div_mul_div_comm, lt_div_iff₀ (by norm_num : (0:ℚ) < 100 * 100)]
    linarith

theorem ratSqrt_two : ratSqrt 2 = 141 / 100 := by
  have hs : Nat.sqrt 20000 = 141 := by
    have h1 : 141 ≤ Nat.sqrt 20000 := Nat.le_sqrt'.mpr (by norm_num)
    have h2 : Nat.sqrt 20000 < 142 := Nat.sqrt_lt'.mpr (by norm_num)
    omega
  unfold ratSqrt
  norm_num [hs]

/-- Claim C5 as stated: for every square-root model consistent with the
real square root (SqrtApprox), every update of an in-bounds relation
leaves the written confidence within the 0.10 to 0.95 bounds, decay
included. -/
def ClaimC5Statement : Prop :=
  ∀ (sqrtF : ℕ → ℚ), SqrtApprox sqrtF →
  ∀ (r : DynamicRelation) (c : DomainCandidate) (now : ℕ) (s : RepoState),
    1/10 ≤ r.domain_conf → r.domain_conf ≤ 19/20 →
    1/10 ≤ (updateExistingRelation sqrtF now true r c s).2.domain_conf ∧
    (updateExistingRelation sqrtF now true r c s).2.domain_conf ≤ 19/20

def c5Relation : DynamicRelation :=
  { relation_id := "DYN_5", head_id := "Entity_A", head_name := "Entity A",
    tail_id := "Entity_B", tail_name := "Entity B",
    relation_type := "Affect", sign := "+", domain_conf := 1/10,
    evidence_count := 1, conflict_count := 0, created_at := 0,
    last_update := 0, origin := "student", semantic_tags := ["sem_confident"],
    decay_applied := false, drift_flag := false,
    need_conflict_resolution := false }

/-- C5 counterexample: a relation at the 0.10 floor that has not been
updated for 660 days decays by a factor of (49/50) to the power 22
(about 0.6412) and is then strengthened.  The strengthen increase is
0.05 divided by the square root of 2; at the SqrtApprox member ratSqrt
(ratSqrt 2 = 1.41) the written confidence is
0.1 x (49/50)^22 + 5/141, about 0.0641 + 0.0355 = 0.0996 < 0.10, and the
real program computes 0.1 x 0.98^22 + 0.05/sqrt 2, about 0.0995, below
the floor as well: the strengthen branch has no floor after decay. -/
theorem C5_conf_bounds_counterexample : ¬ ClaimC5Statement := by
  intro h
  have h2 := h ratSqrt ratSqrt_approx
    c5Relation c2Candidate 660 RepoState.empty (by norm_num [c5Relation])
    (by norm_num [c5Relation])
  have h3 := h2.1
  rw [updateExisting_conf] at h3
  simp only [c5Relation, c2Candidate, applyDecay_conf] at h3
  norm_num [ratSqrt_two] at h3

/-- C5 (amended): creation writes exactly 0.5; any update in which decay is
not applied (fewer than 30 days elapsed) keeps the confidence within
0.10 to 0.95; any weakening, decayed or not, keeps the confidence within
0.10 to 0.95 (the weaken step floors at max(0.1, .) and decay only lowers
the confidence); and the 0.95 upper bound survives every update.  Only
the 0.10 floor of a strengthen after decay can be broken. -/
theorem C5_conf_bounds_amended (sqrtF : ℕ → ℚ) (hsqrt : SqrtApprox sqrtF)
    (r : DynamicRelation) (c : DomainCandidate) (now : ℕ) (s : RepoState)
    (freshId : String) (readOnly : Bool) :
    (createNewRelation freshId now readOnly c s).2.domain_conf = 1/2 ∧
    (1/10 ≤ r.domain_conf → r.domain_conf ≤ 19/20 → now - r.last_update < 30 →
      1/10 ≤ (updateExistingRelation sqrtF now readOnly r c s).2.domain_conf ∧
      (updateExistingRelation sqrtF now readOnly r c s).2.domain_conf ≤ 19/20) ∧
    (0 ≤ r.domain_conf → r.domain_conf ≤ 19/20 →
      ¬ (c.polarity = r.sign ∨ c.polarity = "unknown") →
      1/10 ≤ (updateExistingRelation sqrtF now readOnly r c s).2.domain_conf ∧
      (updateExistingRelation sqrtF now readOnly r c s).2.domain_conf ≤ 19/20) ∧
    (0 ≤ r.domain_conf → r.domain_conf ≤ 19/20 →
      (updateExistingRelation sqrtF now readOnly r c s).2.domain_conf ≤ 19/20) := by
  have hdub : 0 ≤ r.domain_conf → r.domain_conf ≤ 19/20 →
      (applyDecay now r).1.domain_conf ≤ 19/20 := by
    intro h0 hhi
    rw [applyDecay_conf]
    split_ifs with hd
    · exact hhi
    · calc r.domain_conf * ((49:ℚ)/50) ^ ((now - r.last_update) / 30)
          ≤ r.domain_conf * 1 :=
            mul_le_mul_of_nonneg_left (pow_le_one₀ (by norm_num) (by norm_num)) h0
        _ = r.domain_conf := mul_one _
        _ ≤ 19/20 := hhi
  refine ⟨rfl, ?_, ?_, ?_⟩
  · intro hlo hhi hnodecay
    rw [updateExisting_conf]
    have hdc : (applyDecay now r).1.domain_conf = r.domain_conf := by
      rw [applyDecay_conf, if_pos hnodecay]
    rw [hdc]
    have hs0 : (0 : ℚ) ≤ sqrtF (r.evidence_count + 1) :=
      (hsqrt (r.evidence_count + 1)).1
    have hinc : 0 ≤ (1/20 : ℚ) / sqrtF (r.evidence_count + 1) :=
      div_nonneg (by norm_num) hs0
    split_ifs with hpol
    · exact ⟨le_min (by norm_num) (by linarith), min_le_left _ _⟩
    · exact ⟨le_max_left _ _, max_le (by norm_num) (by linarith)⟩
  · intro h0 hhi hpol
    rw [updateExisting_conf, if_neg hpol]
    exact ⟨le_max_left _ _, max_le (by norm_num) (by linarith [hdub h0 hhi])⟩
  · intro h0 hhi
    rw [updateExisting_conf]
    split_ifs with hpol
    · exact min_le_left _ _
    · exact max_le (by norm_num) (by linarith [hdub h0 hhi])

/-- C5 witness: the amended bounds at a concrete no-decay strengthening of
the floor-confidence relation (10 days elapsed, same sign), under the
concrete square-root model ratSqrt. -/
theorem C5_conf_bounds_witness :
    1/10 ≤ (updateExistingRelation ratSqrt 10 true c5Relation
      c2Candidate RepoState.empty).2.domain_conf ∧
    (updateExistingRelation ratSqrt 10 true c5Relation
      c2Candidate RepoState.empty).2.domain_conf ≤ 19/20 :=
  (C5_conf_bounds_amended ratSqrt ratSqrt_approx c5Relation c2Candidate 10
    RepoState.empty "DYN_X" true).2.1 (by norm_num [c5Relation])
    (by norm_num [c5Relation]) (by norm_num [c5Relation])

/-! ## StaticDomainGuard (src/domain/static_guard.py)

The rules map (head, tail) to the loaded static rule.  A missing polarity
is the empty string (Python None or missing key, both falsy).  The
relation-type mismatch branch only logs, so it does not appear. -/

structure StaticRule : Type where
  rule_id : String
  head : String
  tail : String
  polarity : String
  relation : String
  certainty : ℚ
  description : String
deriving DecidableEq

structure StaticGuardResult : Type where
  candidate_id : String
  static_pass : Bool
  static_conflict : Bool
  action : DomainAction
  conflict_rule_id : Option String
  expected_polarity : Option String
  actual_polarity : Option String
  conflict_reason : Option String
deriving DecidableEq

def staticGuardCheck (rules : List ((String × String) × StaticRule))
    (c : DomainCandidate) : StaticGuardResult :=
  match lookupKey rules (c.head_canonical_id, c.tail_canonical_id) with
  | none =>
      { candidate_id := c.candidate_id, static_pass := true,
        static_conflict := false, action := DomainAction.create_new,
        conflict_rule_id := none, expected_polarity := none,
        actual_polarity := none, conflict_reason := none }
  | some rule =>
      if rule.polarity ≠ "" ∧ c.polarity ≠ "unknown" ∧ c.polarity ≠ rule.polarity then
        { candidate_id := c.candidate_id, static_pass := false,
          static_conflict := true, action := DomainAction.reject_to_personal,
          conflict_rule_id := some rule.rule_id,
          expected_polarity := some rule.polarity,
          actual_polarity := some c.polarity,
          conflict_reason := some ("Polarity conflict with static rule: " ++ rule.description) }
      else
        { candidate_id := c.candidate_id, static_pass := true,
          static_conflict := false, action := DomainAction.strengthen_static,
          conflict_rule_id := some rule.rule_id,
          expected_polarity := some rule.polarity,
          actual_polarity := some c.polarity, conflict_reason := none }

/-! ## ConflictAnalyzer (src/domain/conflict_analyzer.py)

Defaults: min_evidence_ratio 3, path_depth_limit 3. -/

structure ConflictAnalysisResult : Type where
  candidate_id : String
  relation_id : String
  has_conflict : Bool
  conflict_type : Option ConflictType
  resolution : ConflictResolution
  existing_sign : Option String
  new_sign : Option String
  existing_evidence : ℕ
  new_evidence : ℕ
  path_consistent : Bool
  inconsistent_path : Option (List String)
deriving DecidableEq

/-- _analyze_direct_conflict.  The evidence ratio the code computes is
relation.evidence_count / max(candidate.freq_count, 1): stored evidence
over incoming evidence. -/
def analyzeDirectConflict (c : DomainCandidate) (r : DynamicRelation) :
    ConflictAnalysisResult :=
  let signStep :=
    if c.polarity ≠ r.sign ∧ c.polarity ≠ "unknown" then
      let evidenceRatio := (r.evidence_count : ℚ) / ((max c.freq_count 1 : ℕ) : ℚ)
      let res :=
        if 3 ≤ evidenceRatio then ConflictResolution.to_personal
        else if r.domain_conf < 2/5 then ConflictResolution.to_drift
        else ConflictResolution.keep_existing
      (true, some ConflictType.sign_conflict, res)
    else (false, (none : Option ConflictType), ConflictResolution.keep_existing)
  let final :=
    if c.relation_type ≠ r.relation_type then
      (true, some ConflictType.type_conflict, ConflictResolution.to_personal)
    else signStep
  { candidate_id := c.candidate_id, relation_id := r.relation_id,
    has_conflict := final.1, conflict_type := final.2.1,
    resolution := final.2.2, existing_sign := some r.sign,
    new_sign := some c.polarity, existing_evidence := r.evidence_count,
    new_evidence := c.freq_count, path_consistent := true,
    inconsistent_path := none }

/-- One BFS path entry: the tuple (current, target, rel_id, sign) the code
appends. -/
structure PathStep : Type where
  cur : String
  tgt : String
  rid : String
  sign : String
deriving DecidableEq

/-- One round of the BFS while-loop body over the adjacency entries of the
dequeued node: collects finished paths, nodes to enqueue, and the extended
visited set. -/
def bfsVisitEntries (endId : String) (path : List PathStep)
    (current : String) :
    List (String × String × String) →
    List (List PathStep) × List (String × List PathStep) × List String →
    List (List PathStep) × List (String × List PathStep) × List String
  | [], st => st
  | (target, sign, relId) :: rest, (accPaths, pending, visited) =>
      if target = endId then
        bfsVisitEntries endId path current rest
          (accPaths ++ [path ++ [⟨current, target, relId, sign⟩]], pending, visited)
      else if target ∈ visited then
        bfsVisitEntries endId path current rest (accPaths, pending, visited)
      else
        bfsVisitEntries endId path current rest
          (accPaths,
           pending ++ [(target, path ++ [⟨current, target, relId, sign⟩])],
           visited ++ [target])

/-- The BFS while-loop.  Each node enters the queue at most once (the
visited check precedes every push), so the loop runs at most one plus the
number of adjacency entries times; fuel is set above that bound. -/
def bfsLoop (graph : List (String × List (String × String × String)))
    (endId : String) (depthLimit : ℕ) :
    ℕ → List (String × List PathStep) → List String → List (List PathStep) →
    List (List PathStep)
  | 0, _, _, acc => acc
  | _ + 1, [], _, acc => acc
  | fuel + 1, (current, path) :: qrest, visited, acc =>
      if depthLimit ≤ path.length then bfsLoop graph endId depthLimit fuel qrest visited acc
      else
        let entries := (lookupKey graph current).getD []
        let step := bfsVisitEntries endId path current entries (acc, [], visited)
        bfsLoop graph endId depthLimit fuel (qrest ++ step.2.1) step.2.2 step.1

def graphAdjSize (graph : List (String × List (String × String × String))) : ℕ :=
  graph.foldl (fun n kv => n + kv.2.length) 0

/-- _find_paths: BFS up to the depth limit; identical start and end give no
paths. -/
def findPaths (graph : List (String × List (String × String × String)))
    (start endId : String) (depthLimit : ℕ) : List (List PathStep) :=
  if start = endId then []
  else bfsLoop graph endId depthLimit (graphAdjSize graph + 2) [(start, [])] [start] []

/-- _calculate_path_sign: product of edge signs, aborting on unknown. -/
def pathSignFold (result : String) : List PathStep → Option String
  | [] => some result
  | st :: rest =>
      if st.sign = "-" then
        pathSignFold (if result = "+" then "-" else "+") rest
      else if st.sign = "unknown" then none
      else pathSignFold result rest

def calculatePathSign (path : List PathStep) : Option String :=
  if path = [] then none else pathSignFold "+" path

/-- Loop of _check_path_consistency over the BFS paths with its early
return on the first conflicting path. -/
def pathsConsistencyLoop (polarity : String) :
    List (List PathStep) → Bool × Option (List String)
  | [] => (true, none)
  | p :: rest =>
      match calculatePathSign p with
      | some combined =>
          if polarity ≠ "unknown" ∧ combined ≠ polarity then
            (false, some (p.map (fun st => st.rid)))
          else pathsConsistencyLoop polarity rest
      | none => pathsConsistencyLoop polarity rest

/-- _check_path_consistency: build the adjacency dict from all stored
domain relations, enumerate BFS paths between the candidate ends, and flag
the first path whose combined sign contradicts the candidate polarity. -/
def checkPathConsistency (s : RepoState) (now : ℕ) (c : DomainCandidate) :
    Bool × Option (List String) :=
  let graph := (adapterGetAllRelations s now).foldl
    (fun g kv =>
      let r := kv.2
      match lookupKey g r.head_id with
      | some lst => setKey g r.head_id (lst ++ [(r.tail_id, r.sign, r.relation_id)])
      | none => g ++ [(r.head_id, [(r.tail_id, r.sign, r.relation_id)])]) []
  let paths := findPaths graph c.head_canonical_id c.tail_canonical_id 3
  pathsConsistencyLoop c.polarity paths

/-- ConflictAnalyzer.analyze: direct conflict, then a path-consistency
override for non-KEEP resolutions, then the semantic override. -/
def analyzeConflict (s : RepoState) (now : ℕ) (c : DomainCandidate)
    (r : DynamicRelation) : ConflictAnalysisResult :=
  let direct := analyzeDirectConflict c r
  let direct2 :=
    if direct.resolution ≠ ConflictResolution.keep_existing then
      let pc := checkPathConsistency s now c
      let d := { direct with path_consistent := pc.1, inconsistent_path := pc.2 }
      if pc.1 = false then
        { d with conflict_type := some ConflictType.path_conflict,
                 resolution := ConflictResolution.to_personal }
      else d
    else direct
  if c.semantic_tag = "sem_wrong" ∨ c.semantic_tag = "sem_spurious" then
    { direct2 with resolution := ConflictResolution.to_personal }
  else direct2

/-! ## DomainDriftDetector (src/domain/drift_detector.py)

Weights 0.3 / 0.25 / 0.25 / 0.2, threshold 0.6.  The Python constructor
call passes is_drift and details, which are not fields of
DriftDetectionResult and are dropped, so the stored result keeps
is_drift_candidate at its False default and the sub-scores at 0. -/

structure DriftDetectionResult : Type where
  relation_id : String
  drift_signal : ℚ
  is_drift_candidate : Bool
  conflict_score : ℚ
  opposite_rate : ℚ
  decay_score : ℚ
  semantic_score : ℚ
  needs_qa : Bool
  suggested_question : Option String
deriving DecidableEq

def driftDetect (readOnly : Bool) (r : DynamicRelation)
    (s : RepoState) : RepoState × DriftDetectionResult :=
  let total := r.evidence_count + r.conflict_count
  let conflictScore : ℚ := if total < 5 then 0 else (r.conflict_count : ℚ) / (total : ℚ)
  let oppositeRate : ℚ := if total = 0 then 0 else (r.conflict_count : ℚ) / (total : ℚ)
  let decayScore : ℚ := if r.decay_applied then 1/2 else 0
  let semanticScore : ℚ :=
    if "sem_ambiguous" ∈ r.semantic_tags then 4/5
    else if "sem_weak" ∈ r.semantic_tags then 1/2
    else 0
  let driftSignal := (3/10) * conflictScore + (1/4) * oppositeRate +
    (1/4) * decayScore + (1/5) * semanticScore
  let isDrift := (3/5 : ℚ) ≤ driftSignal
  let needsQa := isDrift ∧ (7/10 : ℚ) ≤ driftSignal
  let result : DriftDetectionResult :=
    { relation_id := r.relation_id, drift_signal := driftSignal,
      is_drift_candidate := false, conflict_score := 0, opposite_rate := 0,
      decay_score := 0, semantic_score := 0,
      needs_qa := decide needsQa, suggested_question := none }
  if isDrift then
    (adapterUpsertRelation readOnly false { r with drift_flag := true } s, result)
  else (s, result)

/-! ## DomainPipeline (src/domain/pipeline.py)

process from Step 2 on, for a candidate that intake admitted, on the
single-edge (tx = None) path.  Returns the repository state, the
final_destination string, and the _personal_candidates entries appended by
this call. -/

def domainPipelineProcess (rules : List ((String × String) × StaticRule))
    (sqrtF : ℕ → ℚ) (freshId : String) (now : ℕ) (readOnly : Bool)
    (c : DomainCandidate) (s : RepoState) :
    RepoState × String × List DomainCandidate :=
  let staticResult := staticGuardCheck rules c
  if staticResult.static_conflict then (s, "personal", [c])
  else
    let dynStep := dynamicUpdate sqrtF freshId now readOnly c s
    if dynStep.2.conflict_pending then
      match adapterGetRelationById dynStep.1 now dynStep.2.relation_id with
      | some r =>
          let conflictResult := analyzeConflict dynStep.1 now c r
          if conflictResult.resolution = ConflictResolution.to_personal then
            (dynStep.1, "personal", [c])
          else if conflictResult.resolution = ConflictResolution.to_drift then
            ((driftDetect readOnly r dynStep.1).1, "domain", [])
          else (dynStep.1, "domain", [])
      | none => (dynStep.1, "domain", [])
    else (dynStep.1, "domain", [])

/-! ## Claim C4: the static guard keeps conflicting candidates out of Domain -/

/-- C4: whenever the (head, tail) pair has a static rule with a fixed
polarity and the candidate polarity is known and differs, the guard
returns REJECT_TO_PERSONAL with static_conflict, and the pipeline performs
no Domain KG write (the repository state is untouched), re-routing the
candidate to the Personal flow. -/
theorem C4_static_guard_reject (rules : List ((String × String) × StaticRule))
    (sqrtF : ℕ → ℚ) (freshId : String) (now : ℕ) (readOnly : Bool)
    (c : DomainCandidate) (s : RepoState) (rule : StaticRule)
    (hrule : lookupKey rules (c.head_canonical_id, c.tail_canonical_id) = some rule)
    (hpol : rule.polarity ≠ "")
    (hknown : c.polarity ≠ "unknown")
    (hdiff : c.polarity ≠ rule.polarity) :
    (staticGuardCheck rules c).action = DomainAction.reject_to_personal ∧
    (staticGuardCheck rules c).static_conflict = true ∧
    (domainPipelineProcess rules sqrtF freshId now readOnly c s).1 = s ∧
    (domainPipelineProcess rules sqrtF freshId now readOnly c s).2.1 = "personal" ∧
    c ∈ (domainPipelineProcess rules sqrtF freshId now readOnly c s).2.2 := by
  have hcheck : staticGuardCheck rules c =
      { candidate_id := c.candidate_id, static_pass := false,
        static_conflict := true, action := DomainAction.reject_to_personal,
        conflict_rule_id := some rule.rule_id,
        expected_polarity := some rule.polarity,
        actual_polarity := some c.polarity,
        conflict_reason := some ("Polarity conflict with static rule: " ++ rule.description) } := by
    unfold staticGuardCheck
    rw [hrule]
    dsimp only
    rw [if_pos ⟨hpol, hknown, hdiff⟩]
  have hproc : domainPipelineProcess rules sqrtF freshId now readOnly c s =
      (s, "personal", [c]) := by
    unfold domainPipelineProcess
    rw [hcheck]
    dsimp only
    rw [if_pos rfl]
  rw [hcheck, hproc]
  exact ⟨rfl, rfl, rfl, rfl, List.mem_singleton.mpr rfl⟩

def c4Rule : StaticRule :=
  { rule_id := "SR001", head := "Federal_Funds_Rate", tail := "US_10Y_Treasury",
    polarity := "-", relation := "Affect", certainty := 1,
    description := "rate hikes depress treasury prices" }

def c4Candidate : DomainCandidate :=
  { candidate_id := "DC_4", raw_edge_id := "R004",
    head_canonical_id := "Federal_Funds_Rate",
    head_canonical_name := "Federal Funds Rate",
    tail_canonical_id := "US_10Y_Treasury",
    tail_canonical_name := "US 10Y Treasury",
    relation_type := "Affect", polarity := "+",
    semantic_tag := "sem_confident", combined_conf := 9/10, student_conf := 9/10,
    freq_count := 1, evidence_source := "student" }

/-- C4 witness: the concrete static-conflict scenario from the spec
(rule polarity minus, candidate polarity plus) is rejected to Personal
with no repository write. -/
theorem C4_static_guard_reject_witness :
    (domainPipelineProcess [((c4Candidate.head_canonical_id,
        c4Candidate.tail_canonical_id), c4Rule)]
      (fun n => (n : ℚ)) "DYN_9" 0 true c4Candidate c1PreState).1 = c1PreState ∧
    (domainPipelineProcess [((c4Candidate.head_canonical_id,
        c4Candidate.tail_canonical_id), c4Rule)]
      (fun n => (n : ℚ)) "DYN_9" 0 true c4Candidate c1PreState).2.1 = "personal" :=
  ⟨(C4_static_guard_reject [((c4Candidate.head_canonical_id,
      c4Candidate.tail_canonical_id), c4Rule)]
      (fun n => (n : ℚ)) "DYN_9" 0 true c4Candidate c1PreState c4Rule
      (by decide) (by decide) (by decide) (by decide)).2.2.1,
   (C4_static_guard_reject [((c4Candidate.head_canonical_id,
      c4Candidate.tail_canonical_id), c4Rule)]
      (fun n => (n : ℚ)) "DYN_9" 0 true c4Candidate c1PreState c4Rule
      (by decide) (by decide) (by decide) (by decide)).2.2.2.1⟩

/-! ## Claim C6: sign-conflict resolution ratio -/

/-- Claim C6 as stated: the ratio is new evidence over stored evidence. -/
def ClaimC6Statement : Prop :=
  ∀ (c : DomainCandidate) (r : DynamicRelation),
    c.polarity ≠ r.sign → c.polarity ≠ "unknown" →
    c.relation_type = r.relation_type →
    ((analyzeDirectConflict c r).resolution = ConflictResolution.to_personal ↔
      3 ≤ (c.freq_count : ℚ) / max (r.evidence_count : ℚ) 1) ∧
    (¬ 3 ≤ (c.freq_count : ℚ) / max (r.evidence_count : ℚ) 1 →
      ((analyzeDirectConflict c r).resolution = ConflictResolution.to_drift ↔
        r.domain_conf < 2/5))

def c6Candidate : DomainCandidate :=
  { candidate_id := "DC_6", raw_edge_id := "R006",
    head_canonical_id := "E_A", head_canonical_name := "A",
    tail_canonical_id := "E_B", tail_canonical_name := "B",
    relation_type := "Affect", polarity := "-",
    semantic_tag := "sem_confident", combined_conf := 4/5, student_conf := 4/5,
    freq_count := 9, evidence_source := "student" }

def c6Relation : DynamicRelation :=
  { relation_id := "DYN_6", head_id := "E_A", head_name := "A",
    tail_id := "E_B", tail_name := "B", relation_type := "Affect",
    sign := "+", domain_conf := 1/2, evidence_count := 1, conflict_count := 0,
    created_at := 0, last_update := 0, origin := "student",
    semantic_tags := ["sem_confident"], decay_applied := false,
    drift_flag := false, need_conflict_resolution := false }

/-- C6 counterexample: nine incoming counter-evidences against a stored
relation with a single evidence.  The claim ratio 9 / max(1,1) = 9 demands
TO_PERSONAL, but the code computes evidence_count / max(freq_count, 1) =
1/9, below 3, and with domain_conf 0.5 resolves KEEP_EXISTING. -/
theorem C6_evidence_ratio_counterexample : ¬ ClaimC6Statement := by
  intro h
  have h2 := (h c6Candidate c6Relation (by decide) (by decide) rfl).1
  have h3 : (analyzeDirectConflict c6Candidate c6Relation).resolution =
      ConflictResolution.keep_existing := by
    with_unfolding_all decide
  rw [h3] at h2
  have h4 : (3 : ℚ) ≤ (c6Candidate.freq_count : ℚ) /
      max (c6Relation.evidence_count : ℚ) 1 := by
    show (3 : ℚ) ≤ ((9 : ℕ) : ℚ) / max ((1 : ℕ) : ℚ) 1
    norm_num
  exact absurd (h2.mpr h4) (by decide)

/-- C6 (amended): for a sign conflict on matching relation types, the code
resolves TO_PERSONAL iff stored_evidence / max(incoming_freq, 1) is at
least the min_evidence_ratio 3 - the inverse of the claimed ratio - and
otherwise TO_DRIFT iff the stored domain_conf is below 0.4, else
KEEP_EXISTING. -/
theorem C6_evidence_ratio_amended (c : DomainCandidate) (r : DynamicRelation)
    (h1 : c.polarity ≠ r.sign) (h2 : c.polarity ≠ "unknown")
    (h3 : c.relation_type = r.relation_type) :
    ((analyzeDirectConflict c r).resolution = ConflictResolution.to_personal ↔
      3 ≤ (r.evidence_count : ℚ) / ((max c.freq_count 1 : ℕ) : ℚ)) ∧
    (¬ 3 ≤ (r.evidence_count : ℚ) / ((max c.freq_count 1 : ℕ) : ℚ) →
      (((analyzeDirectConflict c r).resolution = ConflictResolution.to_drift ↔
          r.domain_conf < 2/5) ∧
       ((analyzeDirectConflict c r).resolution = ConflictResolution.keep_existing ↔
          ¬ r.domain_conf < 2/5))) := by
  unfold analyzeDirectConflict
  dsimp only
  rw [if_neg (show ¬ c.relation_type ≠ r.relation_type from by simp [h3])]
  rw [if_pos (show c.polarity ≠ r.sign ∧ c.polarity ≠ "unknown" from ⟨h1, h2⟩)]
  dsimp only
  split_ifs with hr hc <;> simp_all

/-- C6 witness: stored evidence 10 against one incoming counter-evidence
gives ratio 10 and resolution TO_PERSONAL under the amended rule. -/
theorem C6_evidence_ratio_witness :
    (analyzeDirectConflict c6Candidate
      { c6Relation with evidence_count := 30 }).resolution =
      ConflictResolution.to_personal :=
  (C6_evidence_ratio_amended c6Candidate { c6Relation with evidence_count := 30 }
    (by decide) (by decide) rfl).1.mpr
    (by show (3:ℚ) ≤ ((30:ℕ):ℚ) / ((max 9 1 : ℕ) : ℚ); norm_num)

/-! ## Personal models (src/personal/models.py) -/

inductive PersonalRelevanceType : Type
  | emotional
  | hypothesis
  | inference
  | opinion
  | observation
deriving DecidableEq

def PersonalRelevanceType.value : PersonalRelevanceType → String
  | PersonalRelevanceType.emotional => "emotional"
  | PersonalRelevanceType.hypothesis => "hypothesis"
  | PersonalRelevanceType.inference => "inference"
  | PersonalRelevanceType.opinion => "opinion"
  | PersonalRelevanceType.observation => "observation"

inductive PersonalLabel : Type
  | strong_belief
  | weak_belief
  | noisy_hypothesis
deriving DecidableEq

inductive SourceType : Type
  | user_written
  | text_report
  | llm_inferred
  | domain_rejected
deriving DecidableEq

structure PersonalCandidate : Type where
  candidate_id : String
  raw_edge_id : String
  head_canonical_id : String
  head_canonical_name : String
  tail_canonical_id : String
  tail_canonical_name : String
  relation_type : String
  polarity : String
  semantic_tag : String
  sign_tag : Option String
  student_conf : ℚ
  combined_conf : ℚ
  user_id : String
  source_type : SourceType
  relevance_type : Option PersonalRelevanceType
  fragment_text : Option String
  rejection_reason : Option String
deriving DecidableEq

structure PCSResult : Type where
  candidate_id : String
  pcs_score : ℚ
  personal_label : PersonalLabel
  domain_proximity : ℚ
  semantic_strength : ℚ
  user_origin_weight : ℚ
  consistency_score : ℚ
deriving DecidableEq

/-- One entry of a Personal relation history trail: the "created" event has
no occurrence key, the "updated" event carries the post-increment count. -/
structure HistoryEvent : Type where
  timestamp : ℕ
  action : String
  pcs_score : ℚ
  occurrence : Option ℕ
  fragment : Option String
deriving DecidableEq

structure PersonalRelation : Type where
  relation_id : String
  head_id : String
  head_name : String
  tail_id : String
  tail_name : String
  relation_type : String
  sign : String
  user_id : String
  pcs_score : ℚ
  personal_weight : ℚ
  personal_label : PersonalLabel
  source_type : SourceType
  created_at : ℕ
  last_occurred_at : ℕ
  occurrence_count : ℕ
  relevance_types : List String
  domain_conflict : Bool
  domain_conflict_count : ℕ
  promotion_candidate : Bool
  pcs_history : List (ℕ × ℚ)
  history : List HistoryEvent
  drift_flag : Bool
deriving DecidableEq

/-! ## Claim C10: PCS semantic-strength factor (src/personal/pcs_classifier.py) -/

/-- SEMANTIC_SCORES of the PCS classifier (distinct from the edge-fusion
table of the same name). -/
def PCS_SEMANTIC_SCORES : List (String × ℚ) :=
  [("sem_confident", 9/10),
   ("sem_weak", 1/2),
   ("sem_ambiguous", 1/5),
   ("sem_spurious", -(2/5)),
   ("sem_wrong", -1)]

/-- _calculate_semantic_strength: dict get with default 0. -/
def calculateSemanticStrength (c : PersonalCandidate) : ℚ :=
  match lookupKey PCS_SEMANTIC_SCORES c.semantic_tag with
  | some v => v
  | none => 0

/-- Claim C10 as stated: the P2 factor maps sem_confident to 1.0 (and the
other four tags to 0.5, 0.2, -0.4, -1.0). -/
def ClaimC10Statement : Prop :=
  ∀ c : PersonalCandidate,
    (c.semantic_tag = "sem_confident" → calculateSemanticStrength c = 1) ∧
    (c.semantic_tag = "sem_weak" → calculateSemanticStrength c = 1/2) ∧
    (c.semantic_tag = "sem_ambiguous" → calculateSemanticStrength c = 1/5) ∧
    (c.semantic_tag = "sem_spurious" → calculateSemanticStrength c = -(2/5)) ∧
    (c.semantic_tag = "sem_wrong" → calculateSemanticStrength c = -1)

def c10Candidate : PersonalCandidate :=
  { candidate_id := "PC_10", raw_edge_id := "R010",
    head_canonical_id := "E_A", head_canonical_name := "A",
    tail_canonical_id := "E_B", tail_canonical_name := "B",
    relation_type := "Affect", polarity := "+",
    semantic_tag := "sem_confident", sign_tag := some "confident",
    student_conf := 4/5, combined_conf := 4/5, user_id := "default_user",
    source_type := SourceType.text_report, relevance_type := none,
    fragment_text := none, rejection_reason := none }

/-- C10 counterexample: the classifier scores sem_confident at 0.9, not the
claimed 1.0. -/
theorem C10_semantic_strength_counterexample : ¬ ClaimC10Statement := by
  intro h
  have h1 := (h c10Candidate).1 rfl
  have h2 : calculateSemanticStrength c10Candidate = 9/10 := by
    with_unfolding_all decide
  rw [h2] at h1
  norm_num at h1

/-- C10 (amended): P2 maps sem_confident to 0.9, sem_weak to 0.5,
sem_ambiguous to 0.2, sem_spurious to -0.4, sem_wrong to -1.0, and any
other tag to 0. -/
theorem C10_semantic_strength_scores (c : PersonalCandidate) :
    (c.semantic_tag = "sem_confident" → calculateSemanticStrength c = 9/10) ∧
    (c.semantic_tag = "sem_weak" → calculateSemanticStrength c = 1/2) ∧
    (c.semantic_tag = "sem_ambiguous" → calculateSemanticStrength c = 1/5) ∧
    (c.semantic_tag = "sem_spurious" → calculateSemanticStrength c = -(2/5)) ∧
    (c.semantic_tag = "sem_wrong" → calculateSemanticStrength c = -1) := by
  refine ⟨?_, ?_, ?_, ?_, ?_⟩ <;>
    · intro h
      simp [calculateSemanticStrength, PCS_SEMANTIC_SCORES, lookupKey, h]

/-- C10 witness: the counterexample candidate scores 0.9. -/
theorem C10_semantic_strength_witness :
    calculateSemanticStrength c10Candidate = 9/10 :=
  (C10_semantic_strength_scores c10Candidate).1 rfl

/-! ## PersonalKGUpdate (src/personal/pkg_update.py)

State: the _relations dict (relation_id to row), the key index, and the
per-user index.  There is no delete operation anywhere in the class. -/

structure PKGState : Type where
  relations : List (String × PersonalRelation)
  relationIndex : List ((String × String × String) × String)
  userIndex : List (String × List String)
deriving DecidableEq

def PKGState.empty : PKGState := ⟨[], [], []⟩

/-- Python fragment_text[:100] if fragment_text else None. -/
def fragSlice (t : Option String) : Option String :=
  match t with
  | none => none
  | some txt => if txt = "" then none else some (String.mk (txt.toList.take 100))

/-- _calculate_weight. -/
def pkgCalculateWeight (pcs : PCSResult) : ℚ :=
  match pcs.personal_label with
  | PersonalLabel.strong_belief => pcs.pcs_score
  | PersonalLabel.weak_belief => pcs.pcs_score * (1/2)
  | PersonalLabel.noisy_hypothesis => pcs.pcs_score * (1/10)

def pkgKey (c : PersonalCandidate) : String × String × String :=
  (c.head_canonical_id, c.tail_canonical_id, c.relation_type)

/-- _create_new_relation.  freshId stands for the uuid-based default
relation_id. -/
def pkgCreateNewRelation (freshId : String) (now : ℕ) (c : PersonalCandidate)
    (pcs : PCSResult) (st : PKGState) : PKGState × String :=
  let rel : PersonalRelation :=
    { relation_id := freshId,
      head_id := c.head_canonical_id, head_name := c.head_canonical_name,
      tail_id := c.tail_canonical_id, tail_name := c.tail_canonical_name,
      relation_type := c.relation_type, sign := c.polarity,
      user_id := c.user_id, pcs_score := pcs.pcs_score,
      personal_weight := pkgCalculateWeight pcs,
      personal_label := pcs.personal_label, source_type := c.source_type,
      created_at := now, last_occurred_at := now, occurrence_count := 1,
      relevance_types := match c.relevance_type with
        | some rt => [rt.value]
        | none => [],
      domain_conflict := false, domain_conflict_count := 0,
      promotion_candidate := false, pcs_history := [],
      history := [⟨now, "created", pcs.pcs_score, none, fragSlice c.fragment_text⟩],
      drift_flag := false }
  let userList := (lookupKey st.userIndex rel.user_id).getD []
  ({ relations := setKey st.relations rel.relation_id rel,
     relationIndex := setKey st.relationIndex
       (rel.head_id, rel.tail_id, rel.relation_type) rel.relation_id,
     userIndex := setKey st.userIndex rel.user_id (userList ++ [rel.relation_id]) },
   rel.relation_id)

/-- _update_existing_relation: occurrence and history grow by exactly one,
scores move by the 0.7 / 0.3 weighted average, the label is re-derived,
relevance types are deduplicated.  The missing-row fallback re-creates. -/
def pkgUpdateExistingRelation (freshId : String) (relationId : String)
    (now : ℕ) (c : PersonalCandidate) (pcs : PCSResult) (st : PKGState) :
    PKGState × String :=
  match lookupKey st.relations relationId with
  | none => pkgCreateNewRelation freshId now c pcs st
  | some rel =>
      let newWeight := pkgCalculateWeight pcs
      let rel2 : PersonalRelation :=
        { rel with
          occurrence_count := rel.occurrence_count + 1,
          last_occurred_at := now,
          personal_weight := rel.personal_weight * (7/10) + newWeight * (3/10),
          pcs_score := rel.pcs_score * (7/10) + pcs.pcs_score * (3/10),
          personal_label :=
            if (7/10 : ℚ) ≤ pcs.pcs_score then PersonalLabel.strong_belief
            else if (2/5 : ℚ) ≤ pcs.pcs_score then PersonalLabel.weak_belief
            else PersonalLabel.noisy_hypothesis,
          relevance_types := match c.relevance_type with
            | some rt =>
                if rt.value ∈ rel.relevance_types then rel.relevance_types
                else rel.relevance_types ++ [rt.value]
            | none => rel.relevance_types,
          history := rel.history ++
            [⟨now, "updated", pcs.pcs_score, some (rel.occurrence_count + 1),
              fragSlice c.fragment_text⟩] }
      ({ st with relations := setKey st.relations relationId rel2 }, relationId)

/-- PersonalKGUpdate.update: returns (relation_id, is_new). -/
def pkgUpdate (freshId : String) (now : ℕ) (c : PersonalCandidate)
    (pcs : PCSResult) (st : PKGState) : PKGState × String × Bool :=
  match lookupKey st.relationIndex (pkgKey c) with
  | none =>
      let step := pkgCreateNewRelation freshId now c pcs st
      (step.1, step.2, true)
  | some existingId =>
      let step := pkgUpdateExistingRelation freshId existingId now c pcs st
      (step.1, step.2, false)

/-- One ingest of the Personal pipeline run. -/
structure PKGInput : Type where
  freshId : String
  now : ℕ
  candidate : PersonalCandidate
  pcs : PCSResult
deriving DecidableEq

def pkgRun (st : PKGState) : List PKGInput → PKGState
  | [] => st
  | i :: rest => pkgRun (pkgUpdate i.freshId i.now i.candidate i.pcs st).1 rest

/-- Non-decreasing timestamps from a given clock. -/
def timesMonoB : ℕ → List PKGInput → Bool
  | _, [] => true
  | t, i :: rest => decide (t ≤ i.now) && timesMonoB i.now rest

def finalClock : ℕ → List PKGInput → ℕ
  | t, [] => t
  | _, i :: rest => finalClock i.now rest

/-- History timestamps are non-decreasing starting from a lower bound. -/
def histMonoB : ℕ → List HistoryEvent → Bool
  | _, [] => true
  | lb, e :: rest => decide (lb ≤ e.timestamp) && histMonoB e.timestamp rest

/-- Well-formedness of the Personal store at a clock value: every stored
relation has at least as many history events as occurrences, a
time-ordered history, and no event in the future. -/
def PKGWf (clock : ℕ) (st : PKGState) : Prop :=
  ∀ p ∈ st.relations,
    (p : String × PersonalRelation).2.occurrence_count ≤ p.2.history.length ∧
    histMonoB 0 p.2.history = true ∧
    ∀ e ∈ p.2.history, (e : HistoryEvent).timestamp ≤ clock

instance (clock : ℕ) (st : PKGState) : Decidable (PKGWf clock st) := by
  unfold PKGWf
  infer_instance

theorem lookupKey_setKey_self {κ β : Type} [DecidableEq κ]
    (l : List (κ × β)) (k : κ) (v : β) :
    lookupKey (setKey l k v) k = some v := by
  induction l with
  | nil => simp [setKey, lookupKey]
  | cons a rest ih =>
      obtain ⟨ka, va⟩ := a
      by_cases hka : ka = k
      · simp [setKey, lookupKey, hka]
      · simp [setKey, lookupKey, hka, ih]

theorem lookupKey_setKey_ne {κ β : Type} [DecidableEq κ]
    (l : List (κ × β)) (k k2 : κ) (v : β) (h : k ≠ k2) :
    lookupKey (setKey l k v) k2 = lookupKey l k2 := by
  induction l with
  | nil => simp [setKey, lookupKey, h]
  | cons a rest ih =>
      obtain ⟨ka, va⟩ := a
      by_cases hka : ka = k
      · subst hka
        simp [setKey, lookupKey, h]
      · simp only [setKey, hka, if_false]
        by_cases hk2 : ka = k2 <;> simp [lookupKey, hk2, ih]

theorem mem_setKey {κ β : Type} [DecidableEq κ]
    (l : List (κ × β)) (k : κ) (v : β) (p : κ × β) (hp : p ∈ setKey l k v) :
    p = (k, v) ∨ p ∈ l := by
  induction l with
  | nil => simpa [setKey] using hp
  | cons a rest ih =>
      obtain ⟨ka, va⟩ := a
      by_cases hka : ka = k
      · subst hka
        simp only [setKey, if_pos rfl] at hp
        rcases List.mem_cons.mp hp with h1 | h1
        · exact Or.inl h1
        · exact Or.inr (List.mem_cons_of_mem _ h1)
      · simp only [setKey, hka, if_false] at hp
        rcases List.mem_cons.mp hp with h1 | h1
        · exact Or.inr (List.mem_cons.mpr (Or.inl h1))
        · rcases ih h1 with h2 | h2
          · exact Or.inl h2
          · exact Or.inr (List.mem_cons_of_mem _ h2)

theorem lookupKey_mem {κ β : Type} [DecidableEq κ]
    (l : List (κ × β)) (k : κ) (v : β) (h : lookupKey l k = some v) :
    (k, v) ∈ l := by
  induction l with
  | nil => simp [lookupKey] at h
  | cons a rest ih =>
      obtain ⟨ka, va⟩ := a
      by_cases hka : ka = k
      · subst hka
        simp [lookupKey] at h
        subst h
        exact List.mem_cons_self _ _
      · simp only [lookupKey, hka, if_false] at h
        exact List.mem_cons_of_mem _ (ih h)

theorem histMonoB_append (h : List HistoryEvent) (e' : HistoryEvent)
    (c nt : ℕ) (hub : ∀ e ∈ h, (e : HistoryEvent).timestamp ≤ c)
    (hle : c ≤ nt) (he : e'.timestamp = nt) :
    ∀ lb : ℕ, lb ≤ nt → histMonoB lb h = true →
      histMonoB lb (h ++ [e']) = true := by
  induction h with
  | nil =>
      intro lb hlb _
      simp [histMonoB, he, hlb]
  | cons e rest ih =>
      intro lb _ hm
      simp only [histMonoB, Bool.and_eq_true, decide_eq_true_eq] at hm
      have hets : e.timestamp ≤ nt :=
        le_trans (hub e (List.mem_cons_self _ _)) hle
      have hrest := ih (fun x hx => hub x (List.mem_cons_of_mem _ hx))
        e.timestamp hets hm.2
      simp [histMonoB, hm.1, hrest]

/-- PKGWf is preserved by one update step with a clock at or after the
previous one. -/
theorem pkgUpdate_wf (t now : ℕ) (freshId : String) (c : PersonalCandidate)
    (pcs : PCSResult) (st : PKGState) (hwf : PKGWf t st) (hle : t ≤ now) :
    PKGWf now (pkgUpdate freshId now c pcs st).1 := by
  have hcreate : ∀ fid, PKGWf now (pkgCreateNewRelation fid now c pcs st).1 := by
    intro fid p hp
    unfold pkgCreateNewRelation at hp
    dsimp only at hp
    rcases mem_setKey _ _ _ p hp with h1 | h1
    · subst h1
      refine ⟨by simp, by simp [histMonoB], ?_⟩
      intro e he
      simp only [List.mem_singleton] at he
      subst he
      rfl
    · obtain ⟨ho, hm, hc⟩ := hwf p h1
      exact ⟨ho, hm, fun e he => le_trans (hc e he) hle⟩
  unfold pkgUpdate
  cases hidx : lookupKey st.relationIndex (pkgKey c) with
  | none =>
      dsimp only
      exact hcreate freshId
  | some existingId =>
      dsimp only
      unfold pkgUpdateExistingRelation
      cases hrel : lookupKey st.relations existingId with
      | none =>
          dsimp only
          exact hcreate freshId
      | some rel =>
          dsimp only
          intro p hp
          rcases mem_setKey _ _ _ p hp with h1 | h1
          · subst h1
            obtain ⟨ho, hm, hc⟩ := hwf (existingId, rel)
              (lookupKey_mem _ _ _ hrel)
            refine ⟨?_, ?_, ?_⟩
            · simpa using Nat.add_le_add_right ho 1
            · exact histMonoB_append rel.history _ t now hc hle rfl 0
                (Nat.zero_le _) hm
            · intro e he
              rcases List.mem_append.mp he with h2 | h2
              · exact le_trans (hc e h2) hle
              · simp only [List.mem_singleton] at h2
                subst h2
                rfl
          · obtain ⟨ho, hm, hc⟩ := hwf p h1
            exact ⟨ho, hm, fun e he => le_trans (hc e he) hle⟩

theorem pkgRun_wf (inputs : List PKGInput) (t : ℕ) (st : PKGState)
    (hwf : PKGWf t st) (hmono : timesMonoB t inputs = true) :
    PKGWf (finalClock t inputs) (pkgRun st inputs) := by
  induction inputs generalizing t st with
  | nil => exact hwf
  | cons i rest ih =>
      simp only [timesMonoB, Bool.and_eq_true, decide_eq_true_eq] at hmono
      exact ih i.now _ (pkgUpdate_wf t i.now i.freshId i.candidate i.pcs st
        hwf hmono.1) hmono.2

/-- A single update step never removes a stored relation. -/
theorem pkgUpdate_preserves (freshId : String) (now : ℕ)
    (c : PersonalCandidate) (pcs : PCSResult) (st : PKGState) (rid : String)
    (h : (lookupKey st.relations rid).isSome = true) :
    (lookupKey (pkgUpdate freshId now c pcs st).1.relations rid).isSome = true := by
  have hset : ∀ (l : List (String × PersonalRelation)) (k : String)
      (v : PersonalRelation), (lookupKey l rid).isSome = true →
      (lookupKey (setKey l k v) rid).isSome = true := by
    intro l k v hl
    by_cases hk : k = rid
    · subst hk
      simp [lookupKey_setKey_self]
    · rwa [lookupKey_setKey_ne l k rid v hk]
  unfold pkgUpdate
  cases hidx : lookupKey st.relationIndex (pkgKey c) with
  | none =>
      dsimp only
      unfold pkgCreateNewRelation
      dsimp only
      exact hset _ _ _ h
  | some existingId =>
      dsimp only
      unfold pkgUpdateExistingRelation
      cases hrel : lookupKey st.relations existingId with
      | none =>
          dsimp only
          unfold pkgCreateNewRelation
          dsimp only
          exact hset _ _ _ h
      | some rel =>
          dsimp only
          exact hset _ _ _ h

/-! ## Claim C7: the Personal KG is append-only -/

/-- C7: over any run of PersonalKGUpdate.update calls, (i) a stored
relation is never deleted, (ii) an update hitting an existing indexed
relation appends exactly one history event and increments
occurrence_count by exactly one, and (iii) from any well-formed state and
a non-decreasing clock, every relation keeps len(history) at least
occurrence_count with monotonically time-ordered history. -/
theorem C7_personal_append_only :
    (∀ (st : PKGState) (inputs : List PKGInput) (rid : String),
      (lookupKey st.relations rid).isSome = true →
      (lookupKey (pkgRun st inputs).relations rid).isSome = true) ∧
    (∀ (freshId : String) (now : ℕ) (c : PersonalCandidate) (pcs : PCSResult)
       (st : PKGState) (rid : String) (rel : PersonalRelation),
      lookupKey st.relationIndex (pkgKey c) = some rid →
      lookupKey st.relations rid = some rel →
      (lookupKey (pkgUpdate freshId now c pcs st).1.relations rid).map
          (fun r2 => (r2.history.length, r2.occurrence_count)) =
        some (rel.history.length + 1, rel.occurrence_count + 1)) ∧
    (∀ (inputs : List PKGInput) (t : ℕ) (st : PKGState),
      PKGWf t st → timesMonoB t inputs = true →
      PKGWf (finalClock t inputs) (pkgRun st inputs)) := by
  refine ⟨?_, ?_, pkgRun_wf⟩
  · intro st inputs
    induction inputs generalizing st with
    | nil => exact fun _ h => h
    | cons i rest ih =>
        intro rid h
        exact ih _ rid (pkgUpdate_preserves i.freshId i.now i.candidate
          i.pcs st rid h)
  · intro freshId now c pcs st rid rel hidx hrel
    unfold pkgUpdate
    rw [hidx]
    dsimp only
    unfold pkgUpdateExistingRelation
    rw [hrel]
    dsimp only
    rw [lookupKey_setKey_self]
    simp

def c7Candidate : PersonalCandidate :=
  { candidate_id := "PC_7", raw_edge_id := "R007",
    head_canonical_id := "E_A", head_canonical_name := "A",
    tail_canonical_id := "E_B", tail_canonical_name := "B",
    relation_type := "Affect", polarity := "+",
    semantic_tag := "sem_weak", sign_tag := some "ambiguous",
    student_conf := 3/5, combined_conf := 3/5, user_id := "default_user",
    source_type := SourceType.text_report, relevance_type := none,
    fragment_text := none, rejection_reason := none }

def c7Pcs : PCSResult :=
  { candidate_id := "PC_7", pcs_score := 3/5,
    personal_label := PersonalLabel.weak_belief, domain_proximity := 0,
    semantic_strength := 1/2, user_origin_weight := 1/10,
    consistency_score := 0 }

def c7Relation : PersonalRelation :=
  { relation_id := "PKG_1", head_id := "E_A", head_name := "A",
    tail_id := "E_B", tail_name := "B", relation_type := "Affect",
    sign := "+", user_id := "default_user", pcs_score := 1/2,
    personal_weight := 1/4, personal_label := PersonalLabel.weak_belief,
    source_type := SourceType.text_report, created_at := 5,
    last_occurred_at := 5, occurrence_count := 1, relevance_types := [],
    domain_conflict := false, domain_conflict_count := 0,
    promotion_candidate := false, pcs_history := [],
    history := [⟨5, "created", 1/2, none, none⟩], drift_flag := false }

def c7State : PKGState :=
  { relations := [("PKG_1", c7Relation)],
    relationIndex := [(("E_A", "E_B", "Affect"), "PKG_1")],
    userIndex := [("default_user", ["PKG_1"])] }

/-- C7 witness: updating the concrete stored relation appends one event
and increments the occurrence count to 2, and the relation survives a run. -/
theorem C7_personal_append_only_witness :
    (lookupKey (pkgUpdate "PKG_2" 9 c7Candidate c7Pcs c7State).1.relations
        "PKG_1").map (fun r2 => (r2.history.length, r2.occurrence_count)) =
      some (2, 2) ∧
    (lookupKey (pkgRun c7State [⟨"PKG_2", 9, c7Candidate, c7Pcs⟩]).relations
        "PKG_1").isSome = true :=
  ⟨C7_personal_append_only.2.1 "PKG_2" 9 c7Candidate c7Pcs c7State "PKG_1"
     c7Relation (by decide) (by with_unfolding_all decide),
   C7_personal_append_only.1 c7State [⟨"PKG_2", 9, c7Candidate, c7Pcs⟩]
     "PKG_1" (by decide)⟩

/-! ## Reasoning models (src/reasoning/models.py) -/

inductive ReasoningDirection : Type
  | positive
  | negative
  | neutral
  | unknown
deriving DecidableEq

structure FusedEdge : Type where
  edge_id : String
  head_id : String
  tail_id : String
  relation_type : String
  sign : String
  domain_weight : ℚ
  personal_weight : ℚ
  final_weight : ℚ
  domain_conf : ℚ
  decay_factor : ℚ
  semantic_score : ℚ
  pcs_score : ℚ
  has_personal_conflict : Bool
deriving DecidableEq

structure FusedPath : Type where
  path_id : String
  nodes : List String
  fused_edges : List FusedEdge
  path_weight : ℚ
  path_sign : String
deriving DecidableEq

structure PathReasoningResult : Type where
  path_id : String
  nodes : List String
  node_names : List String
  combined_sign : String
  path_strength : ℚ
  edge_signs : List String
  edge_weights : List ℚ
deriving DecidableEq

structure ReasoningResult : Type where
  query_id : String
  direction : ReasoningDirection
  confidence : ℚ
  paths_used : List PathReasoningResult
  strongest_path : Option PathReasoningResult
  positive_evidence : ℚ
  negative_evidence : ℚ
  conflicting_paths : ℕ
deriving DecidableEq

/-! ## PathReasoningEngine (src/reasoning/path_reasoning.py) -/

/-- _reason_single_path: sign propagation flips only on a minus edge (an
unknown sign is treated like a plus), strength is the product of the
edge weights floored at 0.01. -/
def reasonSinglePath (fp : FusedPath) : PathReasoningResult :=
  if fp.fused_edges = [] then
    ⟨fp.path_id, fp.nodes, fp.nodes, "+", 0, [], []⟩
  else
    let combinedSign := fp.fused_edges.foldl
      (fun sgn e => if e.sign = "-" then (if sgn = "+" then "-" else "+") else sgn)
      "+"
    let pathStrength := fp.fused_edges.foldl
      (fun w e => w * max e.final_weight (1/100)) 1
    ⟨fp.path_id, fp.nodes, fp.nodes, combinedSign, pathStrength,
     fp.fused_edges.map (fun e => e.sign),
     fp.fused_edges.map (fun e => e.final_weight)⟩

/-- _aggregate_paths: bucket path strengths into positive and negative
evidence by combined sign, then threshold the net evidence at the absolute
value 0.05 and normalise the confidence. -/
def aggregatePaths (path_results : List PathReasoningResult)
    (query_id : String) : ReasoningResult :=
  if path_results = [] then
    ⟨query_id, ReasoningDirection.unknown, 0, [], none, 0, 0, 0⟩
  else
    let evid := path_results.foldl
      (fun acc r =>
        if r.combined_sign = "+" then (acc.1 + r.path_strength, acc.2)
        else (acc.1, acc.2 + r.path_strength))
      ((0 : ℚ), (0 : ℚ))
    let total := evid.1 + evid.2
    let dirConf : ReasoningDirection × ℚ :=
      if total = 0 then (ReasoningDirection.unknown, 0)
      else
        ((if 1/20 < evid.1 - evid.2 then ReasoningDirection.positive
          else if evid.1 - evid.2 < -(1/20) then ReasoningDirection.negative
          else ReasoningDirection.neutral),
         min 1 (|evid.1 - evid.2| / max total (1/100)))
    let strongest := path_results.foldl
      (fun best r =>
        match best with
        | none => some r
        | some b => if b.path_strength < r.path_strength then some r else some b)
      none
    let conflicting :=
      if 0 < evid.1 ∧ 0 < evid.2 then
        path_results.countP (fun r => decide (r.combined_sign = "-"))
      else 0
    ⟨query_id, dirConf.1, dirConf.2, path_results, strongest, evid.1, evid.2,
     conflicting⟩

/-- PathReasoningEngine.reason. -/
def reasonPaths (fused_paths : List FusedPath) (query_id : String) :
    ReasoningResult :=
  if fused_paths = [] then
    ⟨query_id, ReasoningDirection.unknown, 0, [], none, 0, 0, 0⟩
  else aggregatePaths (fused_paths.map reasonSinglePath) query_id

/-! ## Claim C8: unknown-sign paths -/

/-- Claim C8 as stated, at the single-path instance it implies: a path
containing an unknown-sign edge contributes to neither evidence bucket. -/
def ClaimC8Statement : Prop :=
  ∀ (fp : FusedPath) (qid : String),
    (∃ e ∈ fp.fused_edges, (e : FusedEdge).sign = "unknown") →
    (reasonPaths [fp] qid).positive_evidence = 0 ∧
    (reasonPaths [fp] qid).negative_evidence = 0

def c8Edge : FusedEdge :=
  { edge_id := "REL_8", head_id := "E_A", tail_id := "E_B",
    relation_type := "Affect", sign := "unknown", domain_weight := 2/5,
    personal_weight := 0, final_weight := 2/5, domain_conf := 1/2,
    decay_factor := 0, semantic_score := 1, pcs_score := 0,
    has_personal_conflict := false }

def c8Path : FusedPath :=
  { path_id := "P8", nodes := ["E_A", "E_B"], fused_edges := [c8Edge],
    path_weight := 2/5, path_sign := "+" }

/-- C8 counterexample: a single path whose only edge has sign unknown is
not dropped - the engine treats the unknown sign as positive and adds the
full path strength 0.4 to positive_evidence. -/
theorem C8_unknown_paths_counterexample : ¬ ClaimC8Statement := by
  intro h
  have h2 := (h c8Path "Q8" ⟨c8Edge, List.mem_singleton.mpr rfl, rfl⟩).1
  have h3 : (reasonPaths [c8Path] "Q8").positive_evidence = 2/5 := by
    with_unfolding_all decide
  rw [h3] at h2
  norm_num at h2

theorem signFoldl_parity (l : List FusedEdge) :
    ∀ sgn : String, sgn = "+" ∨ sgn = "-" →
      l.foldl
        (fun sgn e => if e.sign = "-" then (if sgn = "+" then "-" else "+") else sgn)
        sgn =
      (if l.countP (fun e => decide (e.sign = "-")) % 2 = 0 then sgn
       else if sgn = "+" then "-" else "+") := by
  induction l with
  | nil =>
      intro sgn _
      simp
  | cons e rest ih =>
      intro sgn hs
      by_cases he : e.sign = "-"
      · have hcount : (e :: rest).countP (fun e => decide (e.sign = "-")) =
            rest.countP (fun e => decide (e.sign = "-")) + 1 := by
          simp [List.countP_cons, he]
        have hflip : (if sgn = "+" then "-" else "+") = "+" ∨
            (if sgn = "+" then "-" else "+") = "-" := by
          rcases hs with h1 | h1 <;> simp [h1]
        have hstep := ih (if sgn = "+" then "-" else "+") hflip
        simp only [List.foldl_cons, he, if_true] at *
        rw [hstep, hcount]
        by_cases hp : rest.countP (fun e => decide (e.sign = "-")) % 2 = 0
        · have hp1 : ¬ (rest.countP (fun e => decide (e.sign = "-")) + 1) % 2 = 0 := by
            omega
          simp [hp, hp1]
        · have hp1 : (rest.countP (fun e => decide (e.sign = "-")) + 1) % 2 = 0 := by
            omega
          rcases hs with h1 | h1 <;> simp [hp, hp1, h1]
      · have hcount : (e :: rest).countP (fun e => decide (e.sign = "-")) =
            rest.countP (fun e => decide (e.sign = "-")) := by
          simp [List.countP_cons, he]
        simp only [List.foldl_cons, he, if_false]
        rw [ih sgn hs, hcount]

/-- C8 (amended): a path with unknown-sign edges is kept, its combined
sign is decided by the parity of its minus edges alone (unknown signs are
skipped, acting as plus), and the path contributes its full strength to
the bucket selected by that sign. -/
theorem C8_unknown_paths_amended (fp : FusedPath) (qid : String)
    (h : fp.fused_edges ≠ []) :
    ((reasonSinglePath fp).combined_sign =
      (if fp.fused_edges.countP (fun e => decide (e.sign = "-")) % 2 = 0
       then "+" else "-")) ∧
    ((reasonPaths [fp] qid).positive_evidence =
      (if (reasonSinglePath fp).combined_sign = "+"
       then (reasonSinglePath fp).path_strength else 0)) ∧
    ((reasonPaths [fp] qid).negative_evidence =
      (if (reasonSinglePath fp).combined_sign = "+"
       then 0 else (reasonSinglePath fp).path_strength)) := by
  have hsign : (reasonSinglePath fp).combined_sign =
      (if fp.fused_edges.countP (fun e => decide (e.sign = "-")) % 2 = 0
       then "+" else "-") := by
    unfold reasonSinglePath
    rw [if_neg h]
    dsimp only
    rw [signFoldl_parity fp.fused_edges "+" (Or.inl rfl)]
    simp
  have hlist : [fp] ≠ ([] : List FusedPath) := by simp
  have hmap : ([fp].map reasonSinglePath) = [reasonSinglePath fp] := rfl
  refine ⟨hsign, ?_, ?_⟩ <;>
    · unfold reasonPaths
      rw [if_neg hlist, hmap]
      unfold aggregatePaths
      rw [if_neg (by simp)]
      dsimp only
      by_cases hpos : (reasonSinglePath fp).combined_sign = "+" <;>
        simp [hpos]

def c8NegEdge : FusedEdge := { c8Edge with edge_id := "REL_8b", sign := "-" }

/-- C8 witness: a two-edge path with one unknown and one minus edge has
combined sign minus and contributes its strength to negative evidence. -/
theorem C8_unknown_paths_witness :
    ((reasonSinglePath { c8Path with fused_edges := [c8Edge, c8NegEdge] }).combined_sign = "-") ∧
    ((reasonPaths [{ c8Path with fused_edges := [c8Edge, c8NegEdge] }] "Q8").negative_evidence =
      (reasonSinglePath { c8Path with fused_edges := [c8Edge, c8NegEdge] }).path_strength) := by
  have happ := C8_unknown_paths_amended
    { c8Path with fused_edges := [c8Edge, c8NegEdge] } "Q8" (by simp)
  have hsign : (reasonSinglePath
      { c8Path with fused_edges := [c8Edge, c8NegEdge] }).combined_sign = "-" := by
    rw [happ.1]
    with_unfolding_all decide
  refine ⟨hsign, ?_⟩
  rw [happ.2.2, if_neg (by rw [hsign]; decide)]

/-! ## Claim C9: direction and confidence of the aggregate -/

/-- Claim C9 as stated: thresholds relative to total evidence
(net compared against 0.05 times total). -/
def ClaimC9Statement : Prop :=
  ∀ (prs : List PathReasoningResult) (qid : String), prs ≠ [] →
    ((aggregatePaths prs qid).direction = ReasoningDirection.positive ↔
      (1/20) * ((aggregatePaths prs qid).positive_evidence +
        (aggregatePaths prs qid).negative_evidence) <
      (aggregatePaths prs qid).positive_evidence -
        (aggregatePaths prs qid).negative_evidence) ∧
    ((aggregatePaths prs qid).direction = ReasoningDirection.negative ↔
      (aggregatePaths prs qid).positive_evidence -
        (aggregatePaths prs qid).negative_evidence <
      -((1/20) * ((aggregatePaths prs qid).positive_evidence +
        (aggregatePaths prs qid).negative_evidence))) ∧
    (aggregatePaths prs qid).confidence =
      min 1 (|(aggregatePaths prs qid).positive_evidence -
          (aggregatePaths prs qid).negative_evidence| /
        max ((aggregatePaths prs qid).positive_evidence +
          (aggregatePaths prs qid).negative_evidence) (1/100))

def c9Result : PathReasoningResult :=
  { path_id := "P9", nodes := ["E_A", "E_B"], node_names := ["E_A", "E_B"],
    combined_sign := "+", path_strength := 1/25,
    edge_signs := ["+"], edge_weights := [1/25] }

/-- C9 counterexample: a single positive path of strength 0.04 gives
net = total = 0.04; the claim threshold 0.05 x total = 0.002 < net demands
POSITIVE, but the code compares net against the absolute 0.05 and returns
NEUTRAL. -/
theorem C9_aggregate_counterexample : ¬ ClaimC9Statement := by
  intro h
  have h2 := (h [c9Result] "Q9" (by simp)).1
  have h3 : (aggregatePaths [c9Result] "Q9").direction =
      ReasoningDirection.neutral := by
    with_unfolding_all decide
  have h4 : (1/20 : ℚ) * ((aggregatePaths [c9Result] "Q9").positive_evidence +
      (aggregatePaths [c9Result] "Q9").negative_evidence) <
      (aggregatePaths [c9Result] "Q9").positive_evidence -
      (aggregatePaths [c9Result] "Q9").negative_evidence := by
    with_unfolding_all decide
  have h5 := h2.mpr h4
  rw [h3] at h5
  exact absurd h5 (by decide)

/-- C9 (amended): with nonzero total evidence, direction is POSITIVE iff
net is above the absolute threshold 0.05, NEGATIVE iff below -0.05,
NEUTRAL otherwise, and confidence is min(1, abs(net)/max(total, 0.01));
with zero total the direction is UNKNOWN with confidence 0. -/
theorem C9_aggregate_amended (prs : List PathReasoningResult) (qid : String)
    (h : prs ≠ []) :
    ((aggregatePaths prs qid).positive_evidence +
        (aggregatePaths prs qid).negative_evidence = 0 →
      (aggregatePaths prs qid).direction = ReasoningDirection.unknown ∧
      (aggregatePaths prs qid).confidence = 0) ∧
    ((aggregatePaths prs qid).positive_evidence +
        (aggregatePaths prs qid).negative_evidence ≠ 0 →
      ((aggregatePaths prs qid).direction = ReasoningDirection.positive ↔
        (1/20 : ℚ) < (aggregatePaths prs qid).positive_evidence -
          (aggregatePaths prs qid).negative_evidence) ∧
      ((aggregatePaths prs qid).direction = ReasoningDirection.negative ↔
        (aggregatePaths prs qid).positive_evidence -
          (aggregatePaths prs qid).negative_evidence < -(1/20 : ℚ)) ∧
      ((aggregatePaths prs qid).direction = ReasoningDirection.neutral ↔
        (¬ (1/20 : ℚ) < (aggregatePaths prs qid).positive_evidence -
            (aggregatePaths prs qid).negative_evidence ∧
         ¬ (aggregatePaths prs qid).positive_evidence -
            (aggregatePaths prs qid).negative_evidence < -(1/20 : ℚ))) ∧
      (aggregatePaths prs qid).confidence =
        min 1 (|(aggregatePaths prs qid).positive_evidence -
            (aggregatePaths prs qid).negative_evidence| /
          max ((aggregatePaths prs qid).positive_evidence +
            (aggregatePaths prs qid).negative_evidence) (1/100))) := by
  unfold aggregatePaths
  rw [if_neg h]
  dsimp only
  set E := prs.foldl
    (fun acc r =>
      if r.combined_sign = "+" then (acc.1 + r.path_strength, acc.2)
      else (acc.1, acc.2 + r.path_strength))
    ((0 : ℚ), (0 : ℚ)) with hE
  by_cases h0 : E.1 + E.2 = 0
  · simp [h0]
  · rw [if_neg h0]
    dsimp only
    refine ⟨fun hc => absurd hc h0, fun _ => ?_⟩
    by_cases hpos : (1/20 : ℚ) < E.1 - E.2
    · rw [if_pos hpos]
      exact ⟨iff_of_true rfl hpos,
        iff_of_false (by decide) (fun hneg => absurd hpos (by linarith)),
        iff_of_false (by decide) (fun hn => hn.1 hpos), rfl⟩
    · rw [if_neg hpos]
      by_cases hneg : E.1 - E.2 < -(1/20 : ℚ)
      · rw [if_pos hneg]
        exact ⟨iff_of_false (by decide) hpos, iff_of_true rfl hneg,
          iff_of_false (by decide) (fun hn => hn.2 hneg), rfl⟩
      · rw [if_neg hneg]
        exact ⟨iff_of_false (by decide) hpos, iff_of_false (by decide) hneg,
          iff_of_true rfl ⟨hpos, hneg⟩, rfl⟩

/-- C9 witness: two equal-strength opposite paths give net 0, total 0.8,
direction NEUTRAL and confidence 0. -/
theorem C9_aggregate_witness :
    (aggregatePaths [c9Result,
      { c9Result with path_id := "P9b", combined_sign := "-" }] "Q9").direction =
      ReasoningDirection.neutral ∧
    (aggregatePaths [c9Result,
      { c9Result with path_id := "P9b", combined_sign := "-" }] "Q9").confidence = 0 := by
  have happ := C9_aggregate_amended [c9Result,
    { c9Result with path_id := "P9b", combined_sign := "-" }] "Q9" (by simp)
  have htot : (aggregatePaths [c9Result,
      { c9Result with path_id := "P9b", combined_sign := "-" }] "Q9").positive_evidence +
      (aggregatePaths [c9Result,
      { c9Result with path_id := "P9b", combined_sign := "-" }] "Q9").negative_evidence =
      2/25 := by
    with_unfolding_all decide
  have h2 := happ.2 (by rw [htot]; norm_num)
  constructor
  · exact h2.2.2.1.mpr (by constructor <;> · with_unfolding_all decide)
  · rw [h2.2.2.2]
    have : (aggregatePaths [c9Result,
        { c9Result with path_id := "P9b", combined_sign := "-" }] "Q9").positive_evidence -
        (aggregatePaths [c9Result,
        { c9Result with path_id := "P9b", combined_sign := "-" }] "Q9").negative_evidence =
        0 := by
      with_unfolding_all decide
    rw [this, htot]
    norm_num

end OnTro
